import Mathlib

/-!
# aws-vault `exec` command: `command/exec.go`

A shallow embedding of `ExecCommand.Run` and `ExecCommand.GetToken`.

The command talks to collaborators that live outside `exec.go`: the flag
parser, the user interface, the profile configuration, the keyring, the
session provider, the search-path lookup and the `exec` system call.  Each of
them is a parameter of the embedding.  Every call that crosses that boundary
is recorded, with its result, in a trace, so that statements such as "the
session provider is called once" or "exec is attempted only after the lookup
succeeded" are statements about the trace of a run.

Every collaborator receives the trace so far, so a collaborator may answer
differently on each call.

The claims are stated on what the collaborators answer: the parser's result,
the resolver's result, the keyring's result, the session provider's result
(`SessionAnswer`), the lookup's result and the result of `syscall.Exec`; the
conclusions are the status `Run` returns, the value it leaves in `c.env` and
its trace.
-/

namespace AwsVault

/-- Text of a Go `error` value, what `err.Error()` returns. -/
abbrev Error := String

deriving instance DecidableEq for Except

/-- Modelled from the spec: `vault.Profile` is declared outside `exec.go`.
`Run` reads only `Name`; the remaining provider-specific settings (for
example the MFA device identifier) are kept as uninterpreted pairs. -/
structure Profile where
  Name : String
  settings : List (String × String)
deriving DecidableEq, Repr

/-- Modelled from the spec: `vault.Credentials` is declared outside `exec.go`;
a long-lived access key pair. -/
structure Credentials where
  AccessKey : String
  SecretKey : String
deriving DecidableEq, Repr

/-- Modelled from the spec: `vault.SessionCredentials` is declared outside
`exec.go`; a temporary grant, distinct from the long-lived pair. -/
structure SessionCredentials where
  AccessKey : String
  SecretKey : String
  SessionToken : String
deriving DecidableEq, Repr

/-- The `vault.SessionConfig` value (Profile, TokenAgent, Duration) built at
lines 93-97.  `TokenAgent` is always the command itself; it is not a field
here, the callbacks of a `SessionScript` are answered by `GetToken`.
`Duration` is a `time.Duration`, a count of nanoseconds. -/
structure SessionConfig where
  Profile : Profile
  Duration : Int
deriving DecidableEq, Repr

/-- Lines 17-19: `DefaultSessionDuration = time.Hour * 10`, in nanoseconds. -/
def DefaultSessionDuration : Int := 3600 * 1000000000 * 10

/-- The variables bound to the flag set at lines 39-50. -/
structure Flags where
  refresh : Bool
  noSession : Bool
  session : Bool
  profileName : String
  sessionDuration : Int
deriving DecidableEq, Repr

/-- What `flagSet.Parse(args)` followed by `flagSet.Args()` yields.
`ok f cmdArgs`: `Parse` returned `nil`, the bound variables hold `f` and
`flagSet.Args()` is `cmdArgs`.  `fail usage err`: `Parse` returned `err`,
having called `flagSet.Usage` when `usage` is set.  (A flag set made with
`flag.ExitOnError` ends the process on a parse error instead of returning
it; `Run` handles a returned error all the same, lines 53-56.) -/
inductive ParseOutcome where
  | ok (f : Flags) (cmdArgs : List String)
  | fail (usage : Bool) (err : Error)
deriving DecidableEq, Repr

/-- Which method of `ExecCommand` wrote a message to the user interface. -/
inductive Origin where
  | run
  | getToken
deriving DecidableEq, Repr

/-- The two writing methods of `cli.Ui` that `exec.go` uses. -/
inductive Channel where
  | output
  | error
deriving DecidableEq, Repr

/-- One call across the boundary of `exec.go`, with its result. -/
inductive Event where
  /-- A call `c.Ui.Output(text)` or `c.Ui.Error(text)`. -/
  | ui (origin : Origin) (ch : Channel) (text : String)
  /-- The call `c.Ui.AskSecret(query)`, line 127. -/
  | askSecret (query : String) (res : Except Error String)
  /-- The session provider called `TokenAgent.GetToken(serial)`. -/
  | getToken (serial : String)
  /-- The call `c.profileConfig.Profile(name)`, line 72. -/
  | profile (name : String) (res : Except Error Profile)
  /-- The call `profile.Keyring(c.Keyring).Read()` at line 104. -/
  | keyringRead (p : Profile) (res : Except Error Credentials)
  /-- The session provider called `CredsFunc`, the closure of lines 88-90. -/
  | credsFunc (p : Profile) (res : Except Error Credentials)
  /-- The call `c.sessionProvider.Session(conf)` is entered, line 93. -/
  | sessionCall (conf : SessionConfig)
  /-- The call `c.sessionProvider.Session(conf)` returns. -/
  | sessionRet (res : Except Error SessionCredentials)
  /-- The call `exec.LookPath(file)`, line 112. -/
  | lookPath (file : String) (res : Except Error String)
  /-- The call `syscall.Exec(bin, argv, envv)`, line 118; `none` is a `nil` error. -/
  | exec (bin : String) (argv : List String) (envv : List String) (res : Option Error)
deriving DecidableEq, Repr

/-- The calls made so far. -/
abbrev Hist := List Event

/-- The part of `cli.Ui` whose answer matters: `AskSecret`. `Output` and
`Error` only write, they are `Event.ui` entries of the trace. -/
structure Ui where
  AskSecret : Hist → String → Except Error String

/-- The type `keyring.Keyring` seen through `profile.Keyring(k).Read()`. -/
abbrev Keyring := Hist → Profile → Except Error Credentials

/-- The interface `execProfileConfig`, lines 25-27. -/
abbrev ProfileConfig := Hist → String → Except Error Profile

/-- What a session provider does during one `Session(conf)` call: it may call
back the token agent and `CredsFunc` any number of times, choosing its next
step from each answer, and then returns. -/
inductive SessionScript where
  | ret (res : Except Error SessionCredentials)
  | getToken (serial : String) (next : String × Option Error → SessionScript)
  | credsFunc (next : Except Error Credentials → SessionScript)

/-- The interface `execSessionProvider`, lines 21-23. -/
abbrev SessionProvider := Hist → SessionConfig → SessionScript

/-- Lines 30-36.  A `nil` interface value or `nil` slice is `none`. -/
structure ExecCommand where
  Ui : Ui
  Keyring : Option Keyring
  env : Option (List String)
  sessionProvider : Option SessionProvider
  profileConfig : Option ProfileConfig

/-- Everything `exec.go` uses that is defined elsewhere. -/
structure World where
  /-- The rendering of a string by the `%q` verb of `fmt.Sprintf`. -/
  quote : String → String
  /-- The flag set of lines 44-51 applied to `args`; the first argument holds
  the default values of the bound variables. -/
  flagParse : Flags → List String → ParseOutcome
  /-- The value of `ProfileFromEnv()`, declared in another file of the package. -/
  ProfileFromEnv : String
  /-- The value of `os.Environ()`. -/
  osEnviron : List String
  /-- The variable `keyring.DefaultKeyring`. -/
  DefaultKeyring : Keyring
  /-- The variable `vault.DefaultProfileConfig`. -/
  DefaultProfileConfig : ProfileConfig
  /-- The provider `&vault.KeyringSessionProvider` built at lines 86-91 from the keyring. -/
  KeyringSessionProvider : Keyring → SessionProvider
  /-- The method `vault.Credentials.Environ()`. -/
  credsEnviron : Credentials → List String
  /-- The method `vault.SessionCredentials.Environ()`. -/
  sessEnviron : SessionCredentials → List String
  /-- The function `exec.LookPath`. -/
  LookPath : Hist → String → Except Error String
  /-- The function `syscall.Exec`; `none` is a `nil` error. -/
  Exec : Hist → String → List String → List String → Option Error

/-- Lines 136-145, the raw literal of `Help`. -/
def helpText : String :=
  "\nUsage: aws-vault exec [options] [cmd args...]\n  Executes a command with the credentials from the given profile\n\nOptions:\n  --profile=default         Which aws profile to use, defaults to $AWS_DEFAULT_PROFILE\n  --[no-]session            Whether to generate an STS session [default: session]\n  --duration=1h             The duration for the STS session generated\n  --refresh                 Establish a new session, or refresh the existing one\n"

/-- Lines 135-147: `strings.TrimSpace(helpText)`. -/
def Help : String := helpText.trim

/-- Lines 149-151. -/
def Synopsis : String := "Executes a command with the credentials from the given profile"

/-- Lines 126-133.  Returns the Go pair `(string, error)` and the calls made;
`h` is the trace when the method is entered. -/
def GetToken (w : World) (c : ExecCommand) (h : Hist) (serial : String) :
    (String × Option Error) × List Event :=
  let query := "Enter token code for " ++ w.quote serial ++ ":"
  match c.Ui.AskSecret (h ++ [Event.getToken serial]) query with
  | .error err => (("", some err), [Event.getToken serial, Event.askSecret query (.error err)])
  | .ok token =>
    ((token, none),
      [Event.getToken serial, Event.askSecret query (.ok token),
        Event.ui .getToken .output ""])

/-- One `Session(conf)` call of a provider whose behaviour is `s`: token
requests go to `GetToken` of the command (`TokenAgent: c`, line 95), and
`CredsFunc` is the closure of lines 88-90, `profile.Keyring(c.Keyring).Read()`.
Returns the provider's result and the trace extended by the callbacks. -/
def runSession (w : World) (c : ExecCommand) (kr : Keyring) (profile : Profile) :
    SessionScript → Hist → Except Error SessionCredentials × Hist
  | .ret res, h => (res, h)
  | .getToken serial next, h =>
    runSession w c kr profile (next (GetToken w c h serial).1) (h ++ (GetToken w c h serial).2)
  | .credsFunc next, h =>
    runSession w c kr profile (next (kr h profile)) (h ++ [Event.credsFunc profile (kr h profile)])

/-- How a call of `Run` ends: it returns a status, or the index expression
`cmdArgs[0]` of line 112 is out of range and the Go runtime panics. -/
inductive Outcome where
  | returned (status : Int)
  | indexPanic
deriving DecidableEq, Repr

/-- The result of `Run`: how it ended, the command as the call left it, and
the calls it made. -/
structure RunResult where
  status : Outcome
  cmd : ExecCommand
  trace : Hist

/-- Lines 112-123, reached from both branches of the credential step.  A
`nil` slice given to `syscall.Exec` is an empty environment. -/
def handoff (w : World) (c : ExecCommand) (cmdArgs : List String) (h : Hist) : RunResult :=
  match cmdArgs[0]? with
  | none => ⟨.indexPanic, c, h⟩
  | some file =>
    match w.LookPath h file with
    | .error err =>
      ⟨.returned 1, c, h ++ [Event.lookPath file (.error err), Event.ui .run .error err]⟩
    | .ok bin =>
      match w.Exec (h ++ [Event.lookPath file (.ok bin)]) bin cmdArgs (c.env.getD []) with
      | some err =>
        ⟨.returned 1, c, h ++ [Event.lookPath file (.ok bin),
          Event.exec bin cmdArgs (c.env.getD []) (some err), Event.ui .run .error err]⟩
      | none =>
        ⟨.returned 0, c, h ++ [Event.lookPath file (.ok bin),
          Event.exec bin cmdArgs (c.env.getD []) none]⟩

/-- Lines 84-110 followed by the handoff: the credential step for a resolved
profile.  `kr` is the value of `c.Keyring`, which lines 64-66 made non-nil;
`append` to a `nil` slice is `append` to the empty one. -/
def credentialStep (w : World) (c : ExecCommand) (kr : Keyring) (f : Flags)
    (cmdArgs : List String) (profile : Profile) (h : Hist) : RunResult :=
  if f.session && !f.noSession then
    let sp := c.sessionProvider.getD (w.KeyringSessionProvider kr)
    let c1 := { c with sessionProvider := some sp }
    let conf : SessionConfig := ⟨profile, f.sessionDuration⟩
    let h1 := h ++ [Event.sessionCall conf]
    match runSession w c1 kr profile (sp h1 conf) h1 with
    | (.error err, h2) =>
      ⟨.returned 1, c1, h2 ++ [Event.sessionRet (.error err), Event.ui .run .error err]⟩
    | (.ok sessCreds, h2) =>
      handoff w { c1 with env := some (c1.env.getD [] ++ w.sessEnviron sessCreds) } cmdArgs
        (h2 ++ [Event.sessionRet (.ok sessCreds)])
  else
    match kr h profile with
    | .error err =>
      ⟨.returned 1, c, h ++ [Event.keyringRead profile (.error err), Event.ui .run .error err]⟩
    | .ok creds =>
      handoff w { c with env := some (c.env.getD [] ++ w.credsEnviron creds) } cmdArgs
        (h ++ [Event.keyringRead profile (.ok creds)])

/-- A `Session(conf)` call seen from outside.  `SessionReturns w c kr P s h res h2`:
a provider whose behaviour during the call is `s`, entered when the trace is
`h`, returns `res` and the trace is then `h2`.  Every token request of the
provider is answered by `GetToken` of the command, every `CredsFunc` call by
the keyring read of lines 88-90, and the provider returns what it decides to
return. -/
inductive SessionReturns (w : World) (c : ExecCommand) (kr : Keyring) (P : Profile) :
    SessionScript → Hist → Except Error SessionCredentials → Hist → Prop where
  | ret (res : Except Error SessionCredentials) (h : Hist) :
      SessionReturns w c kr P (.ret res) h res h
  | getToken (serial : String) (next : String × Option Error → SessionScript) (h : Hist)
      (res : Except Error SessionCredentials) (h2 : Hist)
      (hnext : SessionReturns w c kr P (next (GetToken w c h serial).1)
        (h ++ (GetToken w c h serial).2) res h2) :
      SessionReturns w c kr P (.getToken serial next) h res h2
  | credsFunc (next : Except Error Credentials → SessionScript) (h : Hist)
      (res : Except Error SessionCredentials) (h2 : Hist)
      (hnext : SessionReturns w c kr P (next (kr h P))
        (h ++ [Event.credsFunc P (kr h P)]) res h2) :
      SessionReturns w c kr P (.credsFunc next) h res h2

/-- The variables as registered at lines 45-50, before parsing: each holds
the default value given to its flag. -/
def defaultFlags (w : World) : Flags where
  refresh := false
  noSession := false
  session := true
  profileName := w.ProfileFromEnv
  sessionDuration := DefaultSessionDuration

/-- Lines 38-124. -/
def Run (w : World) (c : ExecCommand) (args : List String) : RunResult :=
  match w.flagParse (defaultFlags w) args with
  | .fail usage err =>
    ⟨.returned 1, c,
      (if usage then [Event.ui .run .output Help] else [])
        ++ [Event.ui .run .error ("Error parsing flags: " ++ err)]⟩
  | .ok f cmdArgs =>
    if cmdArgs.length < 1 then
      ⟨.returned 1, c, [Event.ui .run .output ("Expected arguments: " ++ Help)]⟩
    else
      let kr := c.Keyring.getD w.DefaultKeyring
      let pc := c.profileConfig.getD w.DefaultProfileConfig
      let c1 := { c with Keyring := some kr, profileConfig := some pc }
      match pc [] f.profileName with
      | .error err =>
        ⟨.returned 1, c1, [Event.profile f.profileName (.error err), Event.ui .run .output err]⟩
      | .ok profile =>
        let c2 := match c1.env with
          | none => { c1 with env := some w.osEnviron }
          | some _ => c1
        let c3 := { c2 with
          env := some (c2.env.getD [] ++ ["AWS_DEFAULT_PROFILE=" ++ profile.Name]) }
        credentialStep w c3 kr f cmdArgs profile [Event.profile f.profileName (.ok profile)]

/-! ## Observations on a trace -/

/-- Is the event the entry of a `Session` call of the session provider? -/
def Event.isSessionCall : Event → Bool
  | .sessionCall _ => true
  | _ => false

/-- Is the event a call of the token agent, `GetToken`? -/
def Event.isTokenCall : Event → Bool
  | .getToken _ => true
  | _ => false

/-- Is the event a read of the secret store, at line 104 or through
`CredsFunc`? -/
def Event.isStoreRead : Event → Bool
  | .keyringRead _ _ => true
  | .credsFunc _ _ => true
  | _ => false

/-- Is the event a call of `exec.LookPath`? -/
def Event.isLookPath : Event → Bool
  | .lookPath _ _ => true
  | _ => false

/-- Is the event a call of `syscall.Exec`? -/
def Event.isExec : Event → Bool
  | .exec _ _ _ _ => true
  | _ => false

/-- Is the event a call of the profile resolver? -/
def Event.isProfile : Event → Bool
  | .profile _ _ => true
  | _ => false

/-- Is the event one that happens inside a `Session` call: a callback of the
provider, or what `GetToken` does when called back (the prompt, and the empty
line of line 131)? -/
def Event.isCallback : Event → Bool
  | .getToken _ => true
  | .askSecret _ _ => true
  | .ui .getToken .output text => text = ""
  | .credsFunc _ _ => true
  | _ => false

/-- Number of `Session` calls in a trace. -/
def sessionCalls (t : Hist) : Nat := t.countP Event.isSessionCall

/-- Number of `GetToken` calls in a trace. -/
def tokenCalls (t : Hist) : Nat := t.countP Event.isTokenCall

/-- Number of secret-store reads in a trace. -/
def storeReads (t : Hist) : Nat := t.countP Event.isStoreRead

/-- Number of executable lookups in a trace. -/
def lookPathCalls (t : Hist) : Nat := t.countP Event.isLookPath

/-- Number of `syscall.Exec` calls in a trace. -/
def execCalls (t : Hist) : Nat := t.countP Event.isExec

/-- Number of profile resolver calls in a trace. -/
def profileCalls (t : Hist) : Nat := t.countP Event.isProfile

/-- The text a method of the command passed to `Ui.Output` or `Ui.Error`, if
the event is such a call by `o`. -/
def Event.messageOf (o : Origin) : Event → Option String
  | .ui o1 _ text => if o1 = o then some text else none
  | _ => none

/-- The messages `Run` itself wrote to the user interface, in order. -/
def runMessages (t : Hist) : List String := t.filterMap (Event.messageOf .run)

/-- The channel and text of the event, if it is a call of `Ui.Output` or
`Ui.Error`. -/
def Event.writeOf : Event → Option (Channel × String)
  | .ui _ ch text => some (ch, text)
  | _ => none

/-- Everything written with `Ui.Output` or `Ui.Error` in a trace, in order,
whichever method wrote it. -/
def written (t : Hist) : List (Channel × String) := t.filterMap Event.writeOf

/-- Is the event a token prompt that the user answered? -/
def Event.isAnswered : Event → Bool
  | .askSecret _ (.ok _) => true
  | _ => false

/-- Number of answered token prompts in a trace. -/
def answered (t : Hist) : Nat := t.countP Event.isAnswered

/-- The queries passed to `Ui.AskSecret` in a trace, in order. -/
def prompts (t : Hist) : List String :=
  t.filterMap fun ev => match ev with
    | .askSecret q _ => some q
    | _ => none

/-- The error a step of `Run` ended with, if the event is one of the five
calls `Run` makes itself and that call failed. -/
def Event.failure : Event → Option Error
  | .profile _ (.error err) => some err
  | .keyringRead _ (.error err) => some err
  | .sessionRet (.error err) => some err
  | .lookPath _ (.error err) => some err
  | .exec _ _ _ (some err) => some err
  | _ => none

/-- The environment `Run` starts from: `c.env`, or `os.Environ()` when `c.env`
is `nil` (lines 78-80). -/
def inherited (w : World) (c : ExecCommand) : List String := c.env.getD w.osEnviron

/-- The keyring `Run` uses (lines 64-66). -/
def keyringOf (w : World) (c : ExecCommand) : Keyring := c.Keyring.getD w.DefaultKeyring

/-- The session provider `Run` uses (lines 85-92): the one the command
holds, or a `KeyringSessionProvider` on the keyring when it holds none. -/
def sessionProviderOf (w : World) (c : ExecCommand) : SessionProvider :=
  c.sessionProvider.getD (w.KeyringSessionProvider (keyringOf w c))

/-- The session request of lines 93-97 for the resolved profile `P` returns
`res`, the trace being `h2` at that moment: the provider of the run is
called, right after the profile resolution, with the configuration built
from `P` and the requested duration. -/
def SessionAnswer (w : World) (c : ExecCommand) (f : Flags) (P : Profile)
    (res : Except Error SessionCredentials) (h2 : Hist) : Prop :=
  SessionReturns w c (keyringOf w c) P
    (sessionProviderOf w c
      [Event.profile f.profileName (.ok P), Event.sessionCall ⟨P, f.sessionDuration⟩]
      ⟨P, f.sessionDuration⟩)
    [Event.profile f.profileName (.ok P), Event.sessionCall ⟨P, f.sessionDuration⟩]
    res h2

/-- The profile resolver `Run` uses (lines 68-70). -/
def profileConfigOf (w : World) (c : ExecCommand) : ProfileConfig :=
  c.profileConfig.getD w.DefaultProfileConfig

/-! ## A concrete setting, used to run the command on examples -/

/-- A small flag parser standing in for the `flag` package on the examples:
it knows `--no-session` and `--profile=dev`, `--profile=ops`,
`--profile=nope`, and stops at the first other argument. -/
def demoParse : Flags → List String → ParseOutcome
  | f, [] => .ok f []
  | f, a :: rest =>
    if a = "--no-session" then demoParse { f with noSession := true } rest
    else if a = "--profile=dev" then demoParse { f with profileName := "dev" } rest
    else if a = "--profile=ops" then demoParse { f with profileName := "ops" } rest
    else if a = "--profile=nope" then demoParse { f with profileName := "nope" } rest
    else .ok f (a :: rest)

/-- Profiles `dev` and `ops` exist; the keyring holds a key pair for `dev`
only; the session provider asks for one token and accepts `123456`; `env` and
`badbin` are on the search path, `badbin` cannot be executed. -/
def demoWorld : World where
  quote := fun s => "\"" ++ s ++ "\""
  flagParse := demoParse
  ProfileFromEnv := "dev"
  osEnviron := ["HOME=/root"]
  DefaultKeyring := fun _ p =>
    if p.Name = "dev" then .ok ⟨"AK", "SK"⟩ else .error "keyring: item not found"
  DefaultProfileConfig := fun _ n =>
    if n = "dev" then .ok ⟨"dev", []⟩
    else if n = "ops" then .ok ⟨"ops", []⟩
    else .error "profile not found"
  KeyringSessionProvider := fun _ _ _ =>
    .getToken "mfa" fun r =>
      match r with
      | (t, none) => if t = "123456" then .ret (.ok ⟨"SAK", "SSK", "TOK"⟩)
                     else .ret (.error "access denied")
      | (_, some err) => .ret (.error err)
  credsEnviron := fun cr =>
    ["AWS_ACCESS_KEY_ID=" ++ cr.AccessKey, "AWS_SECRET_ACCESS_KEY=" ++ cr.SecretKey]
  sessEnviron := fun sc =>
    ["AWS_ACCESS_KEY_ID=" ++ sc.AccessKey, "AWS_SECRET_ACCESS_KEY=" ++ sc.SecretKey,
      "AWS_SESSION_TOKEN=" ++ sc.SessionToken]
  LookPath := fun _ file =>
    if file = "env" then .ok "/usr/bin/env"
    else if file = "badbin" then .ok "/tmp/badbin"
    else .error "executable file not found in $PATH"
  Exec := fun _ bin _ _ => if bin = "/tmp/badbin" then some "exec format error" else none

/-- A command whose user types `123456` when asked. -/
def demoCmd : ExecCommand where
  Ui := ⟨fun _ _ => .ok "123456"⟩
  Keyring := none
  env := some ["HOME=/root"]
  sessionProvider := none
  profileConfig := none

/-- A command whose user types a wrong code. -/
def wrongCodeCmd : ExecCommand where
  Ui := ⟨fun _ _ => .ok "000000"⟩
  Keyring := none
  env := some ["HOME=/root"]
  sessionProvider := none
  profileConfig := none

/-- Session bypassed, profile `dev`, command `env -i`. -/
def directArgs : List String := ["--no-session", "--profile=dev", "env", "-i"]

/-- The flag variables after parsing `directArgs`. -/
def directFlags : Flags := ⟨false, true, true, "dev", DefaultSessionDuration⟩

/-- Session requested (the default), profile `dev`, command `env -i`. -/
def sessionArgs : List String := ["--profile=dev", "env", "-i"]

/-- The flag variables after parsing `sessionArgs`. -/
def sessionFlags : Flags := ⟨false, false, true, "dev", DefaultSessionDuration⟩

/-- A profile the resolver does not know. -/
def unknownArgs : List String := ["--profile=nope", "env"]

/-- The flag variables after parsing `unknownArgs`. -/
def unknownFlags : Flags := ⟨false, false, true, "nope", DefaultSessionDuration⟩

/-- Session bypassed, and a profile for which the keyring holds nothing. -/
def noKeyArgs : List String := ["--no-session", "--profile=ops", "env"]

/-- A command that is not on the search path. -/
def noSuchArgs : List String := ["--no-session", "--profile=dev", "nosuch"]

/-- A command that is found but cannot be executed. -/
def badBinArgs : List String := ["--no-session", "--profile=dev", "badbin"]

/-- The environment handed to `env -i` on the direct path. -/
def directEnv : List String :=
  ["HOME=/root", "AWS_DEFAULT_PROFILE=dev", "AWS_ACCESS_KEY_ID=AK", "AWS_SECRET_ACCESS_KEY=SK"]

/-- The environment handed to `env -i` on the session path. -/
def sessionEnv : List String :=
  ["HOME=/root", "AWS_DEFAULT_PROFILE=dev", "AWS_ACCESS_KEY_ID=SAK",
    "AWS_SECRET_ACCESS_KEY=SSK", "AWS_SESSION_TOKEN=TOK"]

/-- The flag variables after parsing `noKeyArgs`. -/
def noKeyFlags : Flags := ⟨false, true, true, "ops", DefaultSessionDuration⟩

/-- The profile `dev` as the resolver returns it. -/
def devProfile : Profile := ⟨"dev", []⟩

/-- The trace of a run for `dev` with the session bypassed, when the keyring
has answered. -/
def directTrace : Hist :=
  [Event.profile "dev" (.ok devProfile), Event.keyringRead devProfile (.ok ⟨"AK", "SK"⟩)]

/-- The trace of a run for `dev` when the session provider is about to
return, the user having typed `code` at its one token prompt. -/
def sessionTrace (code : String) : Hist :=
  [Event.profile "dev" (.ok devProfile),
    Event.sessionCall ⟨devProfile, DefaultSessionDuration⟩,
    Event.getToken "mfa",
    Event.askSecret "Enter token code for \"mfa\":" (.ok code),
    Event.ui .getToken .output ""]

/-! ## The paths through `Run` -/

/-- A successful credential step for the resolved profile `P`: `pre` is the
trace when line 110 is passed, `cenv` the assignments appended at line 102 or
109.  Either the session is bypassed and the keyring returns `cr` for `P`,
or a session is requested and the provider returns `sc`. -/
inductive CredOk (w : World) (c : ExecCommand) (f : Flags) (P : Profile) :
    Hist → List String → Prop where
  | direct (cr : Credentials) (hflag : (f.session && !f.noSession) = false)
      (hread : keyringOf w c [Event.profile f.profileName (.ok P)] P = .ok cr) :
      CredOk w c f P
        [Event.profile f.profileName (.ok P), Event.keyringRead P (.ok cr)]
        (w.credsEnviron cr)
  | session (cb : Hist) (sc : SessionCredentials)
      (hflag : (f.session && !f.noSession) = true)
      (hsess : SessionAnswer w c f P (.ok sc)
        ([Event.profile f.profileName (.ok P), Event.sessionCall ⟨P, f.sessionDuration⟩]
          ++ cb)) :
      CredOk w c f P
        ([Event.profile f.profileName (.ok P), Event.sessionCall ⟨P, f.sessionDuration⟩]
          ++ cb ++ [Event.sessionRet (.ok sc)])
        (w.sessEnviron sc)

/-- The ways a call of `Run` can go, each with the status it returns, the
value it leaves in `c.env`, and its trace. -/
inductive Path (w : World) (c : ExecCommand) (args : List String) :
    Outcome → Option (List String) → Hist → Prop where
  | parseFailed (usage : Bool) (err : Error)
      (hp : w.flagParse (defaultFlags w) args = .fail usage err) :
      Path w c args (.returned 1) c.env
        ((if usage then [Event.ui .run .output Help] else [])
          ++ [Event.ui .run .error ("Error parsing flags: " ++ err)])
  | noCommand (f : Flags) (hp : w.flagParse (defaultFlags w) args = .ok f []) :
      Path w c args (.returned 1) c.env
        [Event.ui .run .output ("Expected arguments: " ++ Help)]
  | profileFailed (f : Flags) (file : String) (rest : List String) (err : Error)
      (hp : w.flagParse (defaultFlags w) args = .ok f (file :: rest))
      (hprof : profileConfigOf w c [] f.profileName = .error err) :
      Path w c args (.returned 1) c.env
        [Event.profile f.profileName (.error err), Event.ui .run .output err]
  | readFailed (f : Flags) (file : String) (rest : List String) (P : Profile) (err : Error)
      (hp : w.flagParse (defaultFlags w) args = .ok f (file :: rest))
      (hprof : profileConfigOf w c [] f.profileName = .ok P)
      (hflag : (f.session && !f.noSession) = false)
      (hread : keyringOf w c [Event.profile f.profileName (.ok P)] P = .error err) :
      Path w c args (.returned 1)
        (some (inherited w c ++ ["AWS_DEFAULT_PROFILE=" ++ P.Name]))
        [Event.profile f.profileName (.ok P), Event.keyringRead P (.error err),
          Event.ui .run .error err]
  | sessionFailed (f : Flags) (file : String) (rest : List String) (P : Profile) (err : Error)
      (cb : Hist)
      (hp : w.flagParse (defaultFlags w) args = .ok f (file :: rest))
      (hprof : profileConfigOf w c [] f.profileName = .ok P)
      (hflag : (f.session && !f.noSession) = true)
      (hcb : ∀ ev ∈ cb, ev.isCallback = true)
      (hsess : SessionAnswer w c f P (.error err)
        ([Event.profile f.profileName (.ok P), Event.sessionCall ⟨P, f.sessionDuration⟩]
          ++ cb)) :
      Path w c args (.returned 1)
        (some (inherited w c ++ ["AWS_DEFAULT_PROFILE=" ++ P.Name]))
        ([Event.profile f.profileName (.ok P), Event.sessionCall ⟨P, f.sessionDuration⟩]
          ++ cb ++ [Event.sessionRet (.error err), Event.ui .run .error err])
  | lookupFailed (f : Flags) (file : String) (rest : List String) (P : Profile)
      (pre : Hist) (cenv : List String) (err : Error)
      (hp : w.flagParse (defaultFlags w) args = .ok f (file :: rest))
      (hprof : profileConfigOf w c [] f.profileName = .ok P)
      (hcred : CredOk w c f P pre cenv)
      (hlook : w.LookPath pre file = .error err) :
      Path w c args (.returned 1)
        (some (inherited w c ++ ["AWS_DEFAULT_PROFILE=" ++ P.Name] ++ cenv))
        (pre ++ [Event.lookPath file (.error err), Event.ui .run .error err])
  | execFailed (f : Flags) (file : String) (rest : List String) (P : Profile)
      (pre : Hist) (cenv : List String) (bin : String) (err : Error)
      (hp : w.flagParse (defaultFlags w) args = .ok f (file :: rest))
      (hprof : profileConfigOf w c [] f.profileName = .ok P)
      (hcred : CredOk w c f P pre cenv)
      (hlook : w.LookPath pre file = .ok bin)
      (hexec : w.Exec (pre ++ [Event.lookPath file (.ok bin)]) bin (file :: rest)
        (inherited w c ++ ["AWS_DEFAULT_PROFILE=" ++ P.Name] ++ cenv) = some err) :
      Path w c args (.returned 1)
        (some (inherited w c ++ ["AWS_DEFAULT_PROFILE=" ++ P.Name] ++ cenv))
        (pre ++ [Event.lookPath file (.ok bin),
          Event.exec bin (file :: rest)
            (inherited w c ++ ["AWS_DEFAULT_PROFILE=" ++ P.Name] ++ cenv) (some err),
          Event.ui .run .error err])
  | execReturned (f : Flags) (file : String) (rest : List String) (P : Profile)
      (pre : Hist) (cenv : List String) (bin : String)
      (hp : w.flagParse (defaultFlags w) args = .ok f (file :: rest))
      (hprof : profileConfigOf w c [] f.profileName = .ok P)
      (hcred : CredOk w c f P pre cenv)
      (hlook : w.LookPath pre file = .ok bin)
      (hexec : w.Exec (pre ++ [Event.lookPath file (.ok bin)]) bin (file :: rest)
        (inherited w c ++ ["AWS_DEFAULT_PROFILE=" ++ P.Name] ++ cenv) = none) :
      Path w c args (.returned 0)
        (some (inherited w c ++ ["AWS_DEFAULT_PROFILE=" ++ P.Name] ++ cenv))
        (pre ++ [Event.lookPath file (.ok bin),
          Event.exec bin (file :: rest)
            (inherited w c ++ ["AWS_DEFAULT_PROFILE=" ++ P.Name] ++ cenv) none])

/-! ## Lemmas -/

theorem GetToken_error (w : World) (c : ExecCommand) (h : Hist) (serial : String) (err : Error)
    (hask : c.Ui.AskSecret (h ++ [Event.getToken serial])
      ("Enter token code for " ++ w.quote serial ++ ":") = .error err) :
    GetToken w c h serial =
      (("", some err), [Event.getToken serial,
        Event.askSecret ("Enter token code for " ++ w.quote serial ++ ":") (.error err)]) := by
  simp [GetToken, hask]

theorem GetToken_ok (w : World) (c : ExecCommand) (h : Hist) (serial : String) (token : String)
    (hask : c.Ui.AskSecret (h ++ [Event.getToken serial])
      ("Enter token code for " ++ w.quote serial ++ ":") = .ok token) :
    GetToken w c h serial =
      ((token, none), [Event.getToken serial,
        Event.askSecret ("Enter token code for " ++ w.quote serial ++ ":") (.ok token),
        Event.ui .getToken .output ""]) := by
  simp [GetToken, hask]

theorem GetToken_callbacks (w : World) (c : ExecCommand) (h : Hist) (serial : String) :
    ∀ ev ∈ (GetToken w c h serial).2, ev.isCallback = true := by
  intro ev hev
  cases hask : c.Ui.AskSecret (h ++ [Event.getToken serial])
      ("Enter token code for " ++ w.quote serial ++ ":") with
  | error err =>
    rw [GetToken_error w c h serial err hask] at hev
    simp at hev
    rcases hev with rfl | rfl <;> rfl
  | ok token =>
    rw [GetToken_ok w c h serial token hask] at hev
    simp at hev
    rcases hev with rfl | rfl | rfl <;> rfl

theorem GetToken_written (w : World) (c : ExecCommand) (h : Hist) (serial : String) :
    written (GetToken w c h serial).2
      = List.replicate (answered (GetToken w c h serial).2) (Channel.output, "") := by
  cases hask : c.Ui.AskSecret (h ++ [Event.getToken serial])
      ("Enter token code for " ++ w.quote serial ++ ":") with
  | error err =>
    rw [GetToken_error w c h serial err hask]
    simp [written, answered, Event.writeOf, Event.isAnswered]
  | ok token =>
    rw [GetToken_ok w c h serial token hask]
    simp [written, answered, Event.writeOf, Event.isAnswered, List.countP_cons]

theorem written_append (a b : Hist) : written (a ++ b) = written a ++ written b := by
  simp [written, List.filterMap_append]

theorem answered_append (a b : Hist) : answered (a ++ b) = answered a + answered b := by
  simp [answered, List.countP_append]

theorem runSession_trace (w : World) (c : ExecCommand) (kr : Keyring) (P : Profile) :
    ∀ (s : SessionScript) (h : Hist),
      ∃ cb, (runSession w c kr P s h).2 = h ++ cb ∧ (∀ ev ∈ cb, ev.isCallback = true) ∧
        written cb = List.replicate (answered cb) (Channel.output, "") := by
  intro s
  induction s with
  | ret res => intro h; exact ⟨[], by simp [runSession], by simp, rfl⟩
  | getToken serial next ih =>
    intro h
    obtain ⟨cb, hcb, hall, hwr⟩ := ih (GetToken w c h serial).1 (h ++ (GetToken w c h serial).2)
    refine ⟨(GetToken w c h serial).2 ++ cb, ?_, ?_, ?_⟩
    · rw [runSession, hcb, List.append_assoc]
    · intro ev hev
      rcases List.mem_append.1 hev with h1 | h1
      · exact GetToken_callbacks w c h serial ev h1
      · exact hall ev h1
    · rw [written_append, answered_append, GetToken_written, hwr, List.replicate_add]
  | credsFunc next ih =>
    intro h
    obtain ⟨cb, hcb, hall, hwr⟩ := ih (kr h P) (h ++ [Event.credsFunc P (kr h P)])
    refine ⟨Event.credsFunc P (kr h P) :: cb, ?_, ?_, ?_⟩
    · rw [runSession, hcb]; simp
    · intro ev hev
      rcases List.mem_cons.1 hev with h1 | h1
      · subst h1; rfl
      · exact hall ev h1
    · have h1 : written (Event.credsFunc P (kr h P) :: cb) = written cb := by
        simp [written, List.filterMap_cons, Event.writeOf]
      have h2 : answered (Event.credsFunc P (kr h P) :: cb) = answered cb := by
        simp [answered, List.countP_cons, Event.isAnswered]
      rw [h1, h2, hwr]

theorem GetToken_congr (w : World) (c1 c2 : ExecCommand) (hui : c1.Ui = c2.Ui) (h : Hist)
    (serial : String) : GetToken w c1 h serial = GetToken w c2 h serial := by
  unfold GetToken
  rw [hui]

theorem runSession_congr (w : World) (c1 c2 : ExecCommand) (hui : c1.Ui = c2.Ui) (kr : Keyring)
    (P : Profile) :
    ∀ (s : SessionScript) (h : Hist), runSession w c1 kr P s h = runSession w c2 kr P s h := by
  intro s
  induction s with
  | ret res => intro h; rfl
  | getToken serial next ih =>
    intro h
    rw [runSession, runSession, GetToken_congr w c1 c2 hui]
    exact ih _ _
  | credsFunc next ih =>
    intro h
    rw [runSession, runSession]
    exact ih _ _

theorem runSession_returns (w : World) (c : ExecCommand) (kr : Keyring) (P : Profile) :
    ∀ (s : SessionScript) (h : Hist),
      SessionReturns w c kr P s h (runSession w c kr P s h).1 (runSession w c kr P s h).2 := by
  intro s
  induction s with
  | ret res => intro h; exact SessionReturns.ret res h
  | getToken serial next ih =>
    intro h
    rw [runSession]
    exact SessionReturns.getToken serial next h _ _ (ih _ _)
  | credsFunc next ih =>
    intro h
    rw [runSession]
    exact SessionReturns.credsFunc next h _ _ (ih _ _)

theorem SessionReturns.eq_runSession {w : World} {c : ExecCommand} {kr : Keyring} {P : Profile}
    {s : SessionScript} {h : Hist} {res : Except Error SessionCredentials} {h2 : Hist}
    (hs : SessionReturns w c kr P s h res h2) : runSession w c kr P s h = (res, h2) := by
  induction hs with
  | ret res h => rfl
  | getToken serial next h res h2 hnext ih => rw [runSession]; exact ih
  | credsFunc next h res h2 hnext ih => rw [runSession]; exact ih

theorem SessionReturns.trace {w : World} {c : ExecCommand} {kr : Keyring} {P : Profile}
    {s : SessionScript} {h : Hist} {res : Except Error SessionCredentials} {h2 : Hist}
    (hs : SessionReturns w c kr P s h res h2) :
    ∃ cb, h2 = h ++ cb ∧ (∀ ev ∈ cb, ev.isCallback = true) ∧
      written cb = List.replicate (answered cb) (Channel.output, "") := by
  obtain ⟨cb, h1, h3, h4⟩ := runSession_trace w c kr P s h
  rw [hs.eq_runSession] at h1
  exact ⟨cb, h1, h3, h4⟩

theorem SessionAnswer.callbacks {w : World} {c : ExecCommand} {f : Flags} {P : Profile}
    {res : Except Error SessionCredentials} {cb : Hist}
    (hs : SessionAnswer w c f P res
      ([Event.profile f.profileName (.ok P), Event.sessionCall ⟨P, f.sessionDuration⟩] ++ cb)) :
    ∀ ev ∈ cb, ev.isCallback = true := by
  obtain ⟨cb1, h1, h3, _⟩ := SessionReturns.trace hs
  have := List.append_cancel_left h1
  subst this
  exact h3

theorem SessionAnswer.determined {w : World} {c : ExecCommand} {f : Flags} {P : Profile}
    {r1 r2 : Except Error SessionCredentials} {h1 h2 : Hist}
    (hs1 : SessionAnswer w c f P r1 h1) (hs2 : SessionAnswer w c f P r2 h2) :
    r1 = r2 ∧ h1 = h2 := by
  have e1 := SessionReturns.eq_runSession hs1
  have e2 := SessionReturns.eq_runSession hs2
  rw [e1] at e2
  injection e2 with a b
  exact ⟨a, b⟩

theorem handoff_path (w : World) (c : ExecCommand) (args : List String) (f : Flags)
    (file : String) (rest : List String) (P : Profile) (pre : Hist) (cenv : List String)
    (c1 : ExecCommand)
    (hp : w.flagParse (defaultFlags w) args = .ok f (file :: rest))
    (hprof : profileConfigOf w c [] f.profileName = .ok P)
    (hcred : CredOk w c f P pre cenv)
    (henv : c1.env = some (inherited w c ++ ["AWS_DEFAULT_PROFILE=" ++ P.Name] ++ cenv)) :
    Path w c args (handoff w c1 (file :: rest) pre).status
      (handoff w c1 (file :: rest) pre).cmd.env (handoff w c1 (file :: rest) pre).trace := by
  unfold handoff
  simp only [List.length_cons, Nat.zero_lt_succ, List.getElem?_eq_getElem,
    List.getElem_cons_zero, henv, Option.getD_some]
  split
  · next err hl =>
    simp only [henv]
    exact Path.lookupFailed f file rest P pre cenv err hp hprof hcred hl
  · next bin hl =>
    split
    · next err he =>
      simp only [henv]
      exact Path.execFailed f file rest P pre cenv bin err hp hprof hcred hl he
    · next he =>
      simp only [henv]
      exact Path.execReturned f file rest P pre cenv bin hp hprof hcred hl he

theorem credentialStep_session (w : World) (c : ExecCommand) (f : Flags) (P : Profile)
    (c3 : ExecCommand) (hui : c3.Ui = c.Ui) (hsp : c3.sessionProvider = c.sessionProvider) :
    SessionAnswer w c f P
      (runSession w { c3 with sessionProvider := some (c3.sessionProvider.getD
          (w.KeyringSessionProvider (keyringOf w c))) } (keyringOf w c) P
        (c3.sessionProvider.getD (w.KeyringSessionProvider (keyringOf w c))
          ([Event.profile f.profileName (.ok P)] ++ [Event.sessionCall ⟨P, f.sessionDuration⟩])
          ⟨P, f.sessionDuration⟩)
        ([Event.profile f.profileName (.ok P)]
          ++ [Event.sessionCall ⟨P, f.sessionDuration⟩])).1
      (runSession w { c3 with sessionProvider := some (c3.sessionProvider.getD
          (w.KeyringSessionProvider (keyringOf w c))) } (keyringOf w c) P
        (c3.sessionProvider.getD (w.KeyringSessionProvider (keyringOf w c))
          ([Event.profile f.profileName (.ok P)] ++ [Event.sessionCall ⟨P, f.sessionDuration⟩])
          ⟨P, f.sessionDuration⟩)
        ([Event.profile f.profileName (.ok P)]
          ++ [Event.sessionCall ⟨P, f.sessionDuration⟩])).2 := by
  have key := runSession_congr w { c3 with sessionProvider := some (c3.sessionProvider.getD
    (w.KeyringSessionProvider (keyringOf w c))) } c hui (keyringOf w c) P
  rw [key, hsp]
  exact runSession_returns w c (keyringOf w c) P _ _

theorem credentialStep_path (w : World) (c : ExecCommand) (args : List String) (f : Flags)
    (file : String) (rest : List String) (P : Profile) (c3 : ExecCommand)
    (hp : w.flagParse (defaultFlags w) args = .ok f (file :: rest))
    (hprof : profileConfigOf w c [] f.profileName = .ok P)
    (henv : c3.env = some (inherited w c ++ ["AWS_DEFAULT_PROFILE=" ++ P.Name]))
    (hui : c3.Ui = c.Ui) (hsp : c3.sessionProvider = c.sessionProvider) :
    Path w c args
      (credentialStep w c3 (keyringOf w c) f (file :: rest) P
        [Event.profile f.profileName (.ok P)]).status
      (credentialStep w c3 (keyringOf w c) f (file :: rest) P
        [Event.profile f.profileName (.ok P)]).cmd.env
      (credentialStep w c3 (keyringOf w c) f (file :: rest) P
        [Event.profile f.profileName (.ok P)]).trace := by
  have hans := credentialStep_session w c f P c3 hui hsp
  unfold credentialStep
  split
  · next hflag =>
    simp only
    split
    · next err h2 heq =>
      rw [heq] at hans
      simp only at hans
      obtain ⟨cb, hcb, hall, _⟩ := SessionReturns.trace hans
      subst hcb
      have := Path.sessionFailed f file rest P err cb hp hprof hflag hall hans
      simpa [henv] using this
    · next sc h2 heq =>
      rw [heq] at hans
      simp only at hans
      obtain ⟨cb, hcb, hall, _⟩ := SessionReturns.trace hans
      subst hcb
      have hcred : CredOk w c f P _ _ := CredOk.session cb sc hflag hans
      have := handoff_path w c args f file rest P _ _
        { Ui := c3.Ui, Keyring := c3.Keyring,
          env := some (c3.env.getD [] ++ w.sessEnviron sc),
          sessionProvider := some (c3.sessionProvider.getD
            (w.KeyringSessionProvider (keyringOf w c))),
          profileConfig := c3.profileConfig }
        hp hprof hcred (by simp [henv])
      simpa using this
  · next hflag =>
    have hflag1 : (f.session && !f.noSession) = false := by simpa using hflag
    split
    · next err hr =>
      have : Path w c args _ _ _ := Path.readFailed f file rest P err hp hprof hflag1 hr
      simpa [henv] using this
    · next cr hr =>
      have hcred : CredOk w c f P _ _ := CredOk.direct cr hflag1 hr
      have := handoff_path w c args f file rest P _ _
        { Ui := c3.Ui, Keyring := c3.Keyring,
          env := some (c3.env.getD [] ++ w.credsEnviron cr),
          sessionProvider := c3.sessionProvider,
          profileConfig := c3.profileConfig }
        hp hprof hcred (by simp [henv])
      simpa using this

/-- Every call of `Run` follows one of the paths. -/
theorem Run_path (w : World) (c : ExecCommand) (args : List String) :
    Path w c args (Run w c args).status (Run w c args).cmd.env (Run w c args).trace := by
  unfold Run
  split
  · next usage err hp => exact Path.parseFailed usage err hp
  · next f cmdArgs hp =>
    cases cmdArgs with
    | nil => simpa using Path.noCommand f hp
    | cons file rest =>
      simp only [List.length_cons, Nat.lt_one_iff, Nat.add_one_ne_zero, ↓reduceIte]
      split
      · next err hprof => exact Path.profileFailed f file rest err hp hprof
      · next P hprof =>
        refine credentialStep_path w c args f file rest P _ hp hprof ?_ ?_ ?_
        · unfold inherited
          cases h : c.env <;> simp
        · cases h : c.env <;> simp
        · cases h : c.env <;> simp

theorem callback_not_mem {cb : Hist} (hcb : ∀ ev ∈ cb, ev.isCallback = true) (ev : Event)
    (hev : ev.isCallback = false) : ev ∉ cb := by
  intro hmem
  rw [hcb ev hmem] at hev
  exact Bool.noConfusion hev

theorem callback_countP {cb : Hist} (hcb : ∀ ev ∈ cb, ev.isCallback = true)
    (p : Event → Bool) (hp : ∀ ev, ev.isCallback = true → p ev = false) :
    cb.countP p = 0 := by
  rw [List.countP_eq_zero]
  intro ev hev
  simp [hp ev (hcb ev hev)]

theorem callback_failure {cb : Hist} (hcb : ∀ ev ∈ cb, ev.isCallback = true) :
    ∀ ev ∈ cb, ev.failure = none := by
  intro ev hev
  have := hcb ev hev
  cases ev <;> first | rfl | simp [Event.isCallback] at this

theorem callback_runMessages {cb : Hist} (hcb : ∀ ev ∈ cb, ev.isCallback = true) :
    runMessages cb = [] := by
  unfold runMessages
  rw [List.filterMap_eq_nil_iff]
  intro ev hev
  have := hcb ev hev
  cases ev with
  | ui o ch text =>
    cases o with
    | run => simp [Event.isCallback] at this
    | getToken => simp [Event.messageOf]
  | _ => rfl

theorem CredOk.no_failure {w : World} {c : ExecCommand} {f : Flags} {P : Profile}
    {pre : Hist} {cenv : List String} (hcred : CredOk w c f P pre cenv) :
    ∀ ev ∈ pre, ev.failure = none := by
  cases hcred with
  | direct cr hflag hread =>
    intro ev hev
    simp at hev
    rcases hev with rfl | rfl <;> rfl
  | session cb sc hflag hsess =>
    have hcb := SessionAnswer.callbacks hsess
    intro ev hev
    simp at hev
    rcases hev with rfl | rfl | hev | rfl
    · rfl
    · rfl
    · exact callback_failure hcb ev hev
    · rfl

theorem CredOk.not_mem {w : World} {c : ExecCommand} {f : Flags} {P : Profile}
    {pre : Hist} {cenv : List String} (hcred : CredOk w c f P pre cenv) (ev : Event)
    (h1 : ev.isLookPath = true ∨ ev.isExec = true) : ev ∉ pre := by
  cases hcred with
  | direct cr hflag hread =>
    intro hmem
    simp at hmem
    rcases hmem with rfl | rfl <;> simp [Event.isLookPath, Event.isExec] at h1
  | session cb sc hflag hsess =>
    have hcb := SessionAnswer.callbacks hsess
    intro hmem
    simp at hmem
    rcases hmem with rfl | rfl | hmem | rfl
    · simp [Event.isLookPath, Event.isExec] at h1
    · simp [Event.isLookPath, Event.isExec] at h1
    · have := hcb ev hmem
      cases ev <;> simp [Event.isLookPath, Event.isExec, Event.isCallback] at h1 this
    · simp [Event.isLookPath, Event.isExec] at h1

theorem CredOk.profile_mem {w : World} {c : ExecCommand} {f : Flags} {P : Profile}
    {pre : Hist} {cenv : List String} (hcred : CredOk w c f P pre cenv) :
    Event.profile f.profileName (.ok P) ∈ pre := by
  cases hcred <;> simp

theorem CredOk.source {w : World} {c : ExecCommand} {f : Flags} {P : Profile}
    {pre : Hist} {cenv : List String} (hcred : CredOk w c f P pre cenv) :
    (f.session = true ∧ f.noSession = false ∧
      ∃ sc, Event.sessionRet (.ok sc) ∈ pre ∧ cenv = w.sessEnviron sc) ∨
    ((f.session = false ∨ f.noSession = true) ∧
      ∃ cr, Event.keyringRead P (.ok cr) ∈ pre ∧
        keyringOf w c [Event.profile f.profileName (.ok P)] P = .ok cr ∧
        cenv = w.credsEnviron cr) := by
  cases hcred with
  | direct cr hflag hread =>
    right
    refine ⟨?_, cr, by simp, hread, rfl⟩
    cases hs : f.session <;> cases hn : f.noSession <;> simp_all
  | session cb sc hflag hsess =>
    have hcb := SessionAnswer.callbacks hsess
    left
    simp at hflag
    exact ⟨hflag.1, hflag.2, sc, by simp, rfl⟩

theorem CredOk.sessionCalls_eq {w : World} {c : ExecCommand} {f : Flags} {P : Profile}
    {pre : Hist} {cenv : List String} (hcred : CredOk w c f P pre cenv) :
    sessionCalls pre = if (f.session && !f.noSession) = true then 1 else 0 := by
  cases hcred with
  | direct cr hflag hread => simp [hflag, sessionCalls, Event.isSessionCall]
  | session cb sc hflag hsess =>
    have hcb := SessionAnswer.callbacks hsess
    have h0 : cb.countP Event.isSessionCall = 0 :=
      callback_countP hcb _ (by intro ev hev; cases ev <;> simp_all [Event.isCallback, Event.isSessionCall])
    simp [hflag, sessionCalls, Event.isSessionCall, List.countP_append, List.countP_cons, h0]

theorem CredOk.direct_trace {w : World} {c : ExecCommand} {f : Flags} {P : Profile}
    {pre : Hist} {cenv : List String} (hcred : CredOk w c f P pre cenv)
    (hflag : (f.session && !f.noSession) = false) :
    pre = [Event.profile f.profileName (.ok P),
      Event.keyringRead P (keyringOf w c [Event.profile f.profileName (.ok P)] P)] := by
  cases hcred with
  | direct cr hflag1 hread => rw [hread]
  | session cb sc hflag1 hcb => rw [hflag] at hflag1; exact Bool.noConfusion hflag1

theorem CredOk.execCalls_eq {w : World} {c : ExecCommand} {f : Flags} {P : Profile}
    {pre : Hist} {cenv : List String} (hcred : CredOk w c f P pre cenv) :
    execCalls pre = 0 := by
  unfold execCalls
  rw [List.countP_eq_zero]
  intro ev hev hex
  exact hcred.not_mem ev (Or.inr hex) hev

theorem runMessages_append (a b : Hist) :
    runMessages (a ++ b) = runMessages a ++ runMessages b := by
  simp [runMessages, List.filterMap_append]

theorem SessionAnswer.quiet_trace {w : World} {c : ExecCommand} {f : Flags} {P : Profile}
    {res : Except Error SessionCredentials} {h2 : Hist}
    (hs : SessionAnswer w c f P res h2) :
    runMessages h2 = [] ∧ written h2 = List.replicate (answered h2) (Channel.output, "") := by
  obtain ⟨cb, h1, h3, h4⟩ := SessionReturns.trace hs
  subst h1
  refine ⟨?_, ?_⟩
  · rw [runMessages_append, callback_runMessages h3]
    rfl
  · rw [written_append, answered_append, h4]
    simp [written, answered, Event.writeOf, Event.isAnswered]

theorem CredOk.quiet {w : World} {c : ExecCommand} {f : Flags} {P : Profile}
    {pre : Hist} {cenv : List String} (hcred : CredOk w c f P pre cenv) :
    runMessages pre = [] ∧ written pre = List.replicate (answered pre) (Channel.output, "") := by
  cases hcred with
  | direct cr hflag hread => exact ⟨rfl, rfl⟩
  | session cb sc hflag hsess =>
    obtain ⟨h1, h2⟩ := SessionAnswer.quiet_trace hsess
    refine ⟨?_, ?_⟩
    · rw [runMessages_append, h1]
      rfl
    · rw [written_append, answered_append, h2]
      simp [written, answered, Event.writeOf, Event.isAnswered]

/-- A trace that ends with the one message of `Run`, after events that write
nothing. -/
theorem reported (pre mid : Hist) (ch : Channel) (err : Error)
    (hmsg : runMessages pre = [])
    (hwr : written pre = List.replicate (answered pre) (Channel.output, ""))
    (h1 : runMessages mid = []) (h2 : written mid = []) (h3 : answered mid = 0) :
    runMessages (pre ++ mid ++ [Event.ui .run ch err]) = [err] ∧
    written (pre ++ mid ++ [Event.ui .run ch err])
      = List.replicate (answered (pre ++ mid ++ [Event.ui .run ch err])) (Channel.output, "")
        ++ [(ch, err)] := by
  refine ⟨?_, ?_⟩
  · rw [runMessages_append, runMessages_append, hmsg, h1]
    simp [runMessages, Event.messageOf]
  · rw [written_append, written_append, answered_append, answered_append, hwr, h2, h3]
    simp [written, answered, Event.writeOf, Event.isAnswered]

theorem Run_env_shape (w : World) (c : ExecCommand) (args : List String) :
    (Run w c args).cmd.env = c.env ∨
      ∃ name P, Event.profile name (.ok P) ∈ (Run w c args).trace ∧
        ((Run w c args).cmd.env =
            some (inherited w c ++ ["AWS_DEFAULT_PROFILE=" ++ P.Name]) ∨
          (∃ cr, Event.keyringRead P (.ok cr) ∈ (Run w c args).trace ∧
            (Run w c args).cmd.env =
              some (inherited w c ++ ["AWS_DEFAULT_PROFILE=" ++ P.Name] ++ w.credsEnviron cr)) ∨
          (∃ sc, Event.sessionRet (.ok sc) ∈ (Run w c args).trace ∧
            (Run w c args).cmd.env =
              some (inherited w c ++ ["AWS_DEFAULT_PROFILE=" ++ P.Name] ++ w.sessEnviron sc))) := by
  have hpath := Run_path w c args
  generalize (Run w c args).status = st at *
  generalize (Run w c args).cmd.env = en at *
  generalize (Run w c args).trace = tr at *
  have envOk : ∀ (f : Flags) (P : Profile) (pre : Hist) (cenv : List String) (tl : Hist),
      CredOk w c f P pre cenv →
      ∃ name P1, Event.profile name (.ok P1) ∈ pre ++ tl ∧
        (some (inherited w c ++ ["AWS_DEFAULT_PROFILE=" ++ P.Name] ++ cenv) =
            some (inherited w c ++ ["AWS_DEFAULT_PROFILE=" ++ P1.Name]) ∨
          (∃ cr, Event.keyringRead P1 (.ok cr) ∈ pre ++ tl ∧
            some (inherited w c ++ ["AWS_DEFAULT_PROFILE=" ++ P.Name] ++ cenv) =
              some (inherited w c ++ ["AWS_DEFAULT_PROFILE=" ++ P1.Name] ++ w.credsEnviron cr)) ∨
          (∃ sc, Event.sessionRet (.ok sc) ∈ pre ++ tl ∧
            some (inherited w c ++ ["AWS_DEFAULT_PROFILE=" ++ P.Name] ++ cenv) =
              some (inherited w c ++ ["AWS_DEFAULT_PROFILE=" ++ P1.Name] ++ w.sessEnviron sc))) := by
    intro f P pre cenv tl hcred
    refine ⟨f.profileName, P, List.mem_append_left _ hcred.profile_mem, ?_⟩
    rcases hcred.source with ⟨_, _, sc, h3, h4⟩ | ⟨_, cr, h3, _, h5⟩
    · exact Or.inr (Or.inr ⟨sc, List.mem_append_left _ h3, by rw [h4]⟩)
    · exact Or.inr (Or.inl ⟨cr, List.mem_append_left _ h3, by rw [h5]⟩)
  cases hpath with
  | parseFailed usage err hp => exact Or.inl rfl
  | noCommand f hp => exact Or.inl rfl
  | profileFailed f file1 rest err hp hprof => exact Or.inl rfl
  | readFailed f file1 rest P err hp hprof hflag hread =>
    exact Or.inr ⟨f.profileName, P, List.mem_cons_self _ _, Or.inl rfl⟩
  | sessionFailed f file1 rest P err cb hp hprof hflag hcb =>
    exact Or.inr ⟨f.profileName, P,
      List.mem_append_left _ (List.mem_append_left _ (List.mem_cons_self _ _)), Or.inl rfl⟩
  | lookupFailed f file1 rest P pre cenv err hp hprof hcred hlook =>
    exact Or.inr (envOk f P pre cenv _ hcred)
  | execFailed f file1 rest P pre cenv bin1 err hp hprof hcred hlook =>
    exact Or.inr (envOk f P pre cenv _ hcred)
  | execReturned f file1 rest P pre cenv bin1 hp hprof hcred hlook =>
    exact Or.inr (envOk f P pre cenv _ hcred)

theorem CredOk.no_credential_failure {w : World} {c : ExecCommand} {f : Flags} {P : Profile}
    {pre : Hist} {cenv : List String} (hcred : CredOk w c f P pre cenv) (tl : Hist)
    (htl : ∀ ev ∈ tl, ev.isLookPath = true ∨ ev.isExec = true ∨ ev.messageOf .run ≠ none) :
    ¬ ((∃ P1 err, Event.keyringRead P1 (.error err) ∈ pre ++ tl) ∨
      (∃ err, Event.sessionRet (.error err) ∈ pre ++ tl)) := by
  intro hbad
  rcases hbad with ⟨P1, err, h⟩ | ⟨err, h⟩
  · rcases List.mem_append.1 h with h | h
    · have := hcred.no_failure _ h
      simp [Event.failure] at this
    · have := htl _ h
      simp [Event.isLookPath, Event.isExec, Event.messageOf] at this
  · rcases List.mem_append.1 h with h | h
    · have := hcred.no_failure _ h
      simp [Event.failure] at this
    · have := htl _ h
      simp [Event.isLookPath, Event.isExec, Event.messageOf] at this

theorem Run_env_on_failure (w : World) (c : ExecCommand) (args : List String)
    (hbad : (∃ P err, Event.keyringRead P (.error err) ∈ (Run w c args).trace) ∨
        (∃ err, Event.sessionRet (.error err) ∈ (Run w c args).trace)) :
    ∃ name P, Event.profile name (.ok P) ∈ (Run w c args).trace ∧
      (Run w c args).cmd.env = some (inherited w c ++ ["AWS_DEFAULT_PROFILE=" ++ P.Name]) ∧
      execCalls (Run w c args).trace = 0 := by
  have hpath := Run_path w c args
  generalize (Run w c args).status = st at *
  generalize (Run w c args).cmd.env = en at *
  generalize (Run w c args).trace = tr at *
  cases hpath with
  | parseFailed usage err hp => cases usage <;> simp at hbad
  | noCommand f hp => simp at hbad
  | profileFailed f file1 rest err hp hprof => simp at hbad
  | readFailed f file1 rest P err hp hprof hflag hread =>
    exact ⟨f.profileName, P, List.mem_cons_self _ _, rfl, rfl⟩
  | sessionFailed f file1 rest P err cb hp hprof hflag hcb =>
    refine ⟨f.profileName, P,
      List.mem_append_left _ (List.mem_append_left _ (List.mem_cons_self _ _)), rfl, ?_⟩
    have h0 : cb.countP Event.isExec = 0 :=
      callback_countP hcb _
        (by intro ev hev; cases ev <;> simp_all [Event.isCallback, Event.isExec])
    simp [execCalls, List.countP_append, List.countP_cons, h0, Event.isExec]
  | lookupFailed f file1 rest P pre cenv err hp hprof hcred hlook =>
    refine absurd hbad (hcred.no_credential_failure _ ?_)
    intro ev hev
    simp at hev
    rcases hev with rfl | rfl <;> simp [Event.isLookPath, Event.messageOf]
  | execFailed f file1 rest P pre cenv bin1 err hp hprof hcred hlook =>
    refine absurd hbad (hcred.no_credential_failure _ ?_)
    intro ev hev
    simp at hev
    rcases hev with rfl | rfl | rfl <;> simp [Event.isLookPath, Event.isExec, Event.messageOf]
  | execReturned f file1 rest P pre cenv bin1 hp hprof hcred hlook =>
    refine absurd hbad (hcred.no_credential_failure _ ?_)
    intro ev hev
    simp at hev
    rcases hev with rfl | rfl <;> simp [Event.isLookPath, Event.isExec, Event.messageOf]

theorem CredOk.unique {w : World} {c : ExecCommand} {f : Flags} {P : Profile}
    {pre1 pre2 : Hist} {cenv1 cenv2 : List String}
    (h1 : CredOk w c f P pre1 cenv1) (h2 : CredOk w c f P pre2 cenv2) :
    pre1 = pre2 ∧ cenv1 = cenv2 := by
  cases h1 with
  | direct cr1 hflag1 hread1 =>
    cases h2 with
    | direct cr2 hflag2 hread2 =>
      rw [hread1] at hread2
      injection hread2 with e
      subst e
      exact ⟨rfl, rfl⟩
    | session cb2 sc2 hflag2 hsess2 => rw [hflag1] at hflag2; exact Bool.noConfusion hflag2
  | session cb1 sc1 hflag1 hsess1 =>
    cases h2 with
    | direct cr2 hflag2 hread2 => rw [hflag1] at hflag2; exact Bool.noConfusion hflag2
    | session cb2 sc2 hflag2 hsess2 =>
      obtain ⟨e1, e2⟩ := SessionAnswer.determined hsess1 hsess2
      injection e1 with e1
      subst e1
      have e3 := List.append_cancel_left e2
      subst e3
      exact ⟨rfl, rfl⟩

theorem CredOk.not_read_failed {w : World} {c : ExecCommand} {f : Flags} {P : Profile}
    {pre : Hist} {cenv : List String} (h1 : CredOk w c f P pre cenv)
    (hflag : (f.session && !f.noSession) = false) (err : Error)
    (hread : keyringOf w c [Event.profile f.profileName (.ok P)] P = .error err) : False := by
  cases h1 with
  | direct cr1 hflag1 hread1 => rw [hread1] at hread; exact Except.noConfusion hread
  | session cb1 sc1 hflag1 hsess1 => rw [hflag] at hflag1; exact Bool.noConfusion hflag1

theorem CredOk.not_session_failed {w : World} {c : ExecCommand} {f : Flags} {P : Profile}
    {pre : Hist} {cenv : List String} (h1 : CredOk w c f P pre cenv)
    (hflag : (f.session && !f.noSession) = true) (err : Error) (h2 : Hist)
    (hsess : SessionAnswer w c f P (.error err) h2) : False := by
  cases h1 with
  | direct cr1 hflag1 hread1 => rw [hflag] at hflag1; exact Bool.noConfusion hflag1
  | session cb1 sc1 hflag1 hsess1 =>
    obtain ⟨e1, _⟩ := SessionAnswer.determined hsess1 hsess
    exact Except.noConfusion e1

/-- A run whose arguments parse to a non-empty command list, sorted by what
the collaborators answered. -/
theorem Path.parsed {w : World} {c : ExecCommand} {args : List String} {st : Outcome}
    {en : Option (List String)} {tr : Hist} (hpath : Path w c args st en tr)
    {f : Flags} {file : String} {rest : List String}
    (hp : w.flagParse (defaultFlags w) args = .ok f (file :: rest)) :
    (∃ err, profileConfigOf w c [] f.profileName = .error err ∧ st = .returned 1 ∧ en = c.env ∧
      tr = [Event.profile f.profileName (.error err), Event.ui .run .output err]) ∨
    (∃ P, profileConfigOf w c [] f.profileName = .ok P ∧
      ((∃ err, (f.session && !f.noSession) = false ∧
          keyringOf w c [Event.profile f.profileName (.ok P)] P = .error err ∧
          st = .returned 1 ∧
          en = some (inherited w c ++ ["AWS_DEFAULT_PROFILE=" ++ P.Name]) ∧
          tr = [Event.profile f.profileName (.ok P), Event.keyringRead P (.error err),
            Event.ui .run .error err]) ∨
        (∃ err cb, (f.session && !f.noSession) = true ∧
          SessionAnswer w c f P (.error err)
            ([Event.profile f.profileName (.ok P),
              Event.sessionCall ⟨P, f.sessionDuration⟩] ++ cb) ∧
          st = .returned 1 ∧
          en = some (inherited w c ++ ["AWS_DEFAULT_PROFILE=" ++ P.Name]) ∧
          tr = [Event.profile f.profileName (.ok P),
              Event.sessionCall ⟨P, f.sessionDuration⟩] ++ cb
            ++ [Event.sessionRet (.error err), Event.ui .run .error err]) ∨
        (∃ pre cenv, CredOk w c f P pre cenv ∧
          en = some (inherited w c ++ ["AWS_DEFAULT_PROFILE=" ++ P.Name] ++ cenv) ∧
          ((∃ err, w.LookPath pre file = .error err ∧ st = .returned 1 ∧
              tr = pre ++ [Event.lookPath file (.error err), Event.ui .run .error err]) ∨
            (∃ bin, w.LookPath pre file = .ok bin ∧
              ((∃ err, w.Exec (pre ++ [Event.lookPath file (.ok bin)]) bin (file :: rest)
                    (inherited w c ++ ["AWS_DEFAULT_PROFILE=" ++ P.Name] ++ cenv) = some err ∧
                  st = .returned 1 ∧
                  tr = pre ++ [Event.lookPath file (.ok bin),
                    Event.exec bin (file :: rest)
                      (inherited w c ++ ["AWS_DEFAULT_PROFILE=" ++ P.Name] ++ cenv) (some err),
                    Event.ui .run .error err]) ∨
                (w.Exec (pre ++ [Event.lookPath file (.ok bin)]) bin (file :: rest)
                    (inherited w c ++ ["AWS_DEFAULT_PROFILE=" ++ P.Name] ++ cenv) = none ∧
                  st = .returned 0 ∧
                  tr = pre ++ [Event.lookPath file (.ok bin),
                    Event.exec bin (file :: rest)
                      (inherited w c ++ ["AWS_DEFAULT_PROFILE=" ++ P.Name] ++ cenv)
                      none]))))))) := by
  cases hpath with
  | parseFailed usage err hp1 => rw [hp] at hp1; exact ParseOutcome.noConfusion hp1
  | noCommand f1 hp1 =>
    rw [hp] at hp1
    injection hp1 with _ e
    exact List.noConfusion e
  | profileFailed f1 file1 rest1 err hp1 hprof =>
    rw [hp] at hp1
    injection hp1 with e1 e2
    injection e2 with e2 e3
    subst e1 e2 e3
    exact Or.inl ⟨err, hprof, rfl, rfl, rfl⟩
  | readFailed f1 file1 rest1 P err hp1 hprof hflag hread =>
    rw [hp] at hp1
    injection hp1 with e1 e2
    injection e2 with e2 e3
    subst e1 e2 e3
    exact Or.inr ⟨P, hprof, Or.inl ⟨err, hflag, hread, rfl, rfl, rfl⟩⟩
  | sessionFailed f1 file1 rest1 P err cb hp1 hprof hflag hcb hsess =>
    rw [hp] at hp1
    injection hp1 with e1 e2
    injection e2 with e2 e3
    subst e1 e2 e3
    exact Or.inr ⟨P, hprof, Or.inr (Or.inl ⟨err, cb, hflag, hsess, rfl, rfl, rfl⟩)⟩
  | lookupFailed f1 file1 rest1 P pre cenv err hp1 hprof hcred hlook =>
    rw [hp] at hp1
    injection hp1 with e1 e2
    injection e2 with e2 e3
    subst e1 e2 e3
    exact Or.inr ⟨P, hprof, Or.inr (Or.inr ⟨pre, cenv, hcred, rfl, Or.inl ⟨err, hlook, rfl, rfl⟩⟩)⟩
  | execFailed f1 file1 rest1 P pre cenv bin err hp1 hprof hcred hlook hexec =>
    rw [hp] at hp1
    injection hp1 with e1 e2
    injection e2 with e2 e3
    subst e1 e2 e3
    exact Or.inr ⟨P, hprof, Or.inr (Or.inr ⟨pre, cenv, hcred, rfl,
      Or.inr ⟨bin, hlook, Or.inl ⟨err, hexec, rfl, rfl⟩⟩⟩)⟩
  | execReturned f1 file1 rest1 P pre cenv bin hp1 hprof hcred hlook hexec =>
    rw [hp] at hp1
    injection hp1 with e1 e2
    injection e2 with e2 e3
    subst e1 e2 e3
    exact Or.inr ⟨P, hprof, Or.inr (Or.inr ⟨pre, cenv, hcred, rfl,
      Or.inr ⟨bin, hlook, Or.inr ⟨hexec, rfl, rfl⟩⟩⟩)⟩

/-- A run that reaches the handoff: what it does once the credential step
has succeeded. -/
theorem Run_after_credentials (w : World) (c : ExecCommand) (args : List String) (f : Flags)
    (file : String) (rest : List String) (P : Profile) (pre : Hist) (cenv : List String)
    (hp : w.flagParse (defaultFlags w) args = .ok f (file :: rest))
    (hprof : profileConfigOf w c [] f.profileName = .ok P)
    (hcred : CredOk w c f P pre cenv) :
    (Run w c args).cmd.env
      = some (inherited w c ++ ["AWS_DEFAULT_PROFILE=" ++ P.Name] ++ cenv) ∧
    ((∃ err, w.LookPath pre file = .error err ∧ (Run w c args).status = .returned 1 ∧
        (Run w c args).trace
          = pre ++ [Event.lookPath file (.error err), Event.ui .run .error err]) ∨
      (∃ bin, w.LookPath pre file = .ok bin ∧
        ((∃ err, w.Exec (pre ++ [Event.lookPath file (.ok bin)]) bin (file :: rest)
              (inherited w c ++ ["AWS_DEFAULT_PROFILE=" ++ P.Name] ++ cenv) = some err ∧
            (Run w c args).status = .returned 1 ∧
            (Run w c args).trace = pre ++ [Event.lookPath file (.ok bin),
              Event.exec bin (file :: rest)
                (inherited w c ++ ["AWS_DEFAULT_PROFILE=" ++ P.Name] ++ cenv) (some err),
              Event.ui .run .error err]) ∨
          (w.Exec (pre ++ [Event.lookPath file (.ok bin)]) bin (file :: rest)
              (inherited w c ++ ["AWS_DEFAULT_PROFILE=" ++ P.Name] ++ cenv) = none ∧
            (Run w c args).status = .returned 0 ∧
            (Run w c args).trace = pre ++ [Event.lookPath file (.ok bin),
              Event.exec bin (file :: rest)
                (inherited w c ++ ["AWS_DEFAULT_PROFILE=" ++ P.Name] ++ cenv) none])))) := by
  rcases (Run_path w c args).parsed hp with ⟨err, h1, _⟩ | ⟨P1, h1, h2⟩
  · rw [hprof] at h1; exact Except.noConfusion h1
  · rw [hprof] at h1
    injection h1 with h1
    subst h1
    rcases h2 with ⟨err, hflag, hread, _⟩ | ⟨err, cb, hflag, hsess, _⟩ | ⟨pre1, cenv1, hcred1, hen, h3⟩
    · exact (hcred.not_read_failed hflag err hread).elim
    · exact (hcred.not_session_failed hflag err _ hsess).elim
    · obtain ⟨e1, e2⟩ := hcred1.unique hcred
      subst e1 e2
      exact ⟨hen, h3⟩

/-- A run whose credential step fails. -/
theorem Run_credentials_failed (w : World) (c : ExecCommand) (args : List String) (f : Flags)
    (file : String) (rest : List String) (P : Profile)
    (hp : w.flagParse (defaultFlags w) args = .ok f (file :: rest))
    (hprof : profileConfigOf w c [] f.profileName = .ok P) :
    (∀ err, (f.session && !f.noSession) = false →
      keyringOf w c [Event.profile f.profileName (.ok P)] P = .error err →
      (Run w c args).status = .returned 1 ∧
      (Run w c args).trace = [Event.profile f.profileName (.ok P),
        Event.keyringRead P (.error err), Event.ui .run .error err]) ∧
    (∀ err h2, (f.session && !f.noSession) = true →
      SessionAnswer w c f P (.error err) h2 →
      (Run w c args).status = .returned 1 ∧
      (Run w c args).trace
        = h2 ++ [Event.sessionRet (.error err), Event.ui .run .error err]) := by
  have hpar := (Run_path w c args).parsed hp
  refine ⟨?_, ?_⟩
  · intro err0 hflag0 hread0
    rcases hpar with ⟨err, h1, _⟩ | ⟨P1, h1, h2⟩
    · rw [hprof] at h1; exact Except.noConfusion h1
    · rw [hprof] at h1
      injection h1 with h1
      subst h1
      rcases h2 with ⟨err, hflag, hread, hst, _, htr⟩ | ⟨err, cb, hflag, hsess, _⟩ |
        ⟨pre1, cenv1, hcred1, hen, h3⟩
      · rw [hread0] at hread
        injection hread with e
        subst e
        exact ⟨hst, htr⟩
      · rw [hflag0] at hflag; exact Bool.noConfusion hflag
      · exact (hcred1.not_read_failed hflag0 err0 hread0).elim
  · intro err0 h20 hflag0 hsess0
    rcases hpar with ⟨err, h1, _⟩ | ⟨P1, h1, h2⟩
    · rw [hprof] at h1; exact Except.noConfusion h1
    · rw [hprof] at h1
      injection h1 with h1
      subst h1
      rcases h2 with ⟨err, hflag, hread, hst, _, htr⟩ | ⟨err, cb, hflag, hsess, hst, _, htr⟩ |
        ⟨pre1, cenv1, hcred1, hen, h3⟩
      · rw [hflag0] at hflag; exact Bool.noConfusion hflag
      · obtain ⟨e1, e2⟩ := SessionAnswer.determined hsess hsess0
        injection e1 with e1
        subst e1 e2
        exact ⟨hst, by rw [htr]⟩
      · exact (hcred1.not_session_failed hflag0 err0 _ hsess0).elim

theorem SessionReturns.of_runSession {w : World} {c : ExecCommand} {kr : Keyring}
    {P : Profile} {s : SessionScript} {h : Hist} {res : Except Error SessionCredentials}
    {h2 : Hist} (hrun : runSession w c kr P s h = (res, h2)) :
    SessionReturns w c kr P s h res h2 := by
  have := runSession_returns w c kr P s h
  rw [hrun] at this
  exact this

/-- On the example, the provider accepts the code `123456`. -/
theorem demo_session_accepted :
    SessionAnswer demoWorld demoCmd sessionFlags devProfile (.ok ⟨"SAK", "SSK", "TOK"⟩)
      (sessionTrace "123456") :=
  SessionReturns.of_runSession (by decide)

/-- On the example, the provider refuses the code `000000`. -/
theorem demo_session_refused :
    SessionAnswer demoWorld wrongCodeCmd sessionFlags devProfile (.error "access denied")
      (sessionTrace "000000") :=
  SessionReturns.of_runSession (by decide)

/-- On the example, the keyring returns the pair `AK`, `SK` for `dev`. -/
theorem demo_direct_credentials :
    CredOk demoWorld demoCmd directFlags devProfile directTrace
      (demoWorld.credsEnviron ⟨"AK", "SK"⟩) :=
  CredOk.direct ⟨"AK", "SK"⟩ (by decide) (by decide)

/-- A run that reaches the handoff with a successful lookup: the call of
`syscall.Exec` it makes, and that it makes no other. -/
theorem Run_handoff (w : World) (c : ExecCommand) (args : List String) (f : Flags)
    (file : String) (rest : List String) (P : Profile) (pre : Hist) (cenv : List String)
    (bin : String)
    (hp : w.flagParse (defaultFlags w) args = .ok f (file :: rest))
    (hprof : profileConfigOf w c [] f.profileName = .ok P)
    (hcred : CredOk w c f P pre cenv)
    (hlook : w.LookPath pre file = .ok bin) :
    ∃ tail, (Run w c args).trace = pre ++ [Event.lookPath file (.ok bin),
        Event.exec bin (file :: rest)
          (inherited w c ++ ["AWS_DEFAULT_PROFILE=" ++ P.Name] ++ cenv)
          (w.Exec (pre ++ [Event.lookPath file (.ok bin)]) bin (file :: rest)
            (inherited w c ++ ["AWS_DEFAULT_PROFILE=" ++ P.Name] ++ cenv))] ++ tail ∧
      execCalls (Run w c args).trace = 1 ∧
      (∀ bin1 argv1 envv1 res1, Event.exec bin1 argv1 envv1 res1 ∈ (Run w c args).trace →
        bin1 = bin ∧ argv1 = file :: rest ∧
        envv1 = inherited w c ++ ["AWS_DEFAULT_PROFILE=" ++ P.Name] ++ cenv ∧
        res1 = w.Exec (pre ++ [Event.lookPath file (.ok bin)]) bin (file :: rest)
          (inherited w c ++ ["AWS_DEFAULT_PROFILE=" ++ P.Name] ++ cenv)) := by
  obtain ⟨_, hrun⟩ := Run_after_credentials w c args f file rest P pre cenv hp hprof hcred
  have hex := hcred.execCalls_eq
  simp only [execCalls] at hex
  rcases hrun with ⟨err1, hl1, _⟩ | ⟨bin1, hl1, hx⟩
  · rw [hlook] at hl1; exact Except.noConfusion hl1
  · rw [hlook] at hl1
    injection hl1 with hl1
    subst hl1
    rcases hx with ⟨err1, hx1, _, htr⟩ | ⟨hx1, _, htr⟩
    · refine ⟨[Event.ui .run .error err1], ?_, ?_, ?_⟩
      · rw [htr, hx1]; simp
      · rw [htr]
        simp [execCalls, List.countP_append, List.countP_cons, hex, Event.isExec]
      · intro bin1 argv1 envv1 res1 hmem
        rw [htr] at hmem
        simp at hmem
        rcases hmem with hmem | ⟨rfl, rfl, rfl, rfl⟩
        · exact absurd hmem (hcred.not_mem _ (Or.inr rfl))
        · exact ⟨rfl, rfl, by simp, by rw [hx1]⟩
    · refine ⟨[], ?_, ?_, ?_⟩
      · rw [htr, hx1]; simp
      · rw [htr]
        simp [execCalls, List.countP_append, List.countP_cons, hex, Event.isExec]
      · intro bin1 argv1 envv1 res1 hmem
        rw [htr] at hmem
        simp at hmem
        rcases hmem with hmem | ⟨rfl, rfl, rfl, rfl⟩
        · exact absurd hmem (hcred.not_mem _ (Or.inr rfl))
        · exact ⟨rfl, rfl, by simp, by rw [hx1]⟩

/-- Every call of `syscall.Exec` in a run is the one of a run that reached the
handoff. -/
theorem Run_exec_event (w : World) (c : ExecCommand) (args : List String)
    (bin : String) (argv envv : List String) (res : Option Error)
    (hexec : Event.exec bin argv envv res ∈ (Run w c args).trace) :
    ∃ f file rest P pre cenv,
      w.flagParse (defaultFlags w) args = .ok f (file :: rest) ∧
      profileConfigOf w c [] f.profileName = .ok P ∧
      CredOk w c f P pre cenv ∧
      w.LookPath pre file = .ok bin ∧
      argv = file :: rest ∧
      envv = inherited w c ++ ["AWS_DEFAULT_PROFILE=" ++ P.Name] ++ cenv ∧
      res = w.Exec (pre ++ [Event.lookPath file (.ok bin)]) bin argv envv := by
  have hpath := Run_path w c args
  generalize (Run w c args).status = st at *
  generalize (Run w c args).cmd.env = en at *
  generalize (Run w c args).trace = tr at *
  cases hpath with
  | parseFailed usage err hp => cases usage <;> simp at hexec
  | noCommand f hp => simp at hexec
  | profileFailed f file1 rest err hp hprof => simp at hexec
  | readFailed f file1 rest P err hp hprof hflag hread => simp at hexec
  | sessionFailed f file1 rest P err cb hp hprof hflag hcb =>
    simp at hexec
    exact absurd hexec (callback_not_mem hcb _ rfl)
  | lookupFailed f file1 rest P pre cenv err hp hprof hcred hlook =>
    simp at hexec
    exact absurd hexec (hcred.not_mem _ (Or.inr rfl))
  | execFailed f file1 rest P pre cenv bin1 err hp hprof hcred hlook hx =>
    simp at hexec
    rcases hexec with hexec | ⟨rfl, rfl, rfl, rfl⟩
    · exact absurd hexec (hcred.not_mem _ (Or.inr rfl))
    · exact ⟨f, file1, rest, P, pre, cenv, hp, hprof, hcred, hlook, rfl, by simp,
        by rw [← hx]; simp⟩
  | execReturned f file1 rest P pre cenv bin1 hp hprof hcred hlook hx =>
    simp at hexec
    rcases hexec with hexec | ⟨rfl, rfl, rfl, rfl⟩
    · exact absurd hexec (hcred.not_mem _ (Or.inr rfl))
    · exact ⟨f, file1, rest, P, pre, cenv, hp, hprof, hcred, hlook, rfl, by simp,
        by rw [← hx]; simp⟩

/-! ## The claims -/

/-- C10. When the parsed command part is empty, `Run` returns 1 having only
written the usage line: no call to the profile resolver, the secret store,
the session provider, the lookup or exec, and the command is left as it was.
Moreover no run ends in an index panic at `cmdArgs[0]`, and every lookup that
a run makes is for the first element of a non-empty command list. -/
theorem Run_empty_command (w : World) (c : ExecCommand) (args : List String) :
    (∀ f, w.flagParse (defaultFlags w) args = .ok f [] →
      (Run w c args).status = .returned 1 ∧
      (Run w c args).trace = [Event.ui .run .output ("Expected arguments: " ++ Help)] ∧
      (Run w c args).cmd.env = c.env ∧
      profileCalls (Run w c args).trace = 0 ∧ storeReads (Run w c args).trace = 0 ∧
      sessionCalls (Run w c args).trace = 0 ∧ lookPathCalls (Run w c args).trace = 0 ∧
      execCalls (Run w c args).trace = 0) ∧
    (Run w c args).status ≠ .indexPanic ∧
    (∀ file res, Event.lookPath file res ∈ (Run w c args).trace →
      ∃ f rest, w.flagParse (defaultFlags w) args = .ok f (file :: rest)) := by
  have hpath := Run_path w c args
  generalize (Run w c args).status = st at *
  generalize (Run w c args).cmd.env = en at *
  generalize (Run w c args).trace = tr at *
  refine ⟨?_, ?_, ?_⟩
  · intro f hf
    cases hpath <;> simp_all [profileCalls, storeReads, sessionCalls, lookPathCalls, execCalls,
      Event.isProfile, Event.isStoreRead, Event.isSessionCall, Event.isLookPath, Event.isExec]
  · cases hpath <;> simp
  · intro file res hmem
    cases hpath with
    | parseFailed usage err hp => cases usage <;> simp at hmem
    | noCommand f hp => simp at hmem
    | profileFailed f file1 rest err hp hprof => simp at hmem
    | readFailed f file1 rest P err hp hprof hflag hread => simp at hmem
    | sessionFailed f file1 rest P err cb hp hprof hflag hcb =>
      simp at hmem
      exact absurd hmem (callback_not_mem hcb _ rfl)
    | lookupFailed f file1 rest P pre cenv err hp hprof hcred hlook =>
      refine ⟨f, rest, ?_⟩
      cases hcred with
      | direct cr hflag hread => simp at hmem; rw [hmem.1]; exact hp
      | session cb sc hflag hsess =>
        have hcb := SessionAnswer.callbacks hsess
        simp at hmem
        rcases hmem with hmem | hmem
        · exact absurd hmem (callback_not_mem hcb _ rfl)
        · rw [hmem.1]; exact hp
    | execFailed f file1 rest P pre cenv bin err hp hprof hcred hlook =>
      refine ⟨f, rest, ?_⟩
      cases hcred with
      | direct cr hflag hread => simp at hmem; rw [hmem.1]; exact hp
      | session cb sc hflag hsess =>
        have hcb := SessionAnswer.callbacks hsess
        simp at hmem
        rcases hmem with hmem | hmem
        · exact absurd hmem (callback_not_mem hcb _ rfl)
        · rw [hmem.1]; exact hp
    | execReturned f file1 rest P pre cenv bin hp hprof hcred hlook =>
      refine ⟨f, rest, ?_⟩
      cases hcred with
      | direct cr hflag hread => simp at hmem; rw [hmem.1]; exact hp
      | session cb sc hflag hsess =>
        have hcb := SessionAnswer.callbacks hsess
        simp at hmem
        rcases hmem with hmem | hmem
        · exact absurd hmem (callback_not_mem hcb _ rfl)
        · rw [hmem.1]; exact hp

/-- C1. Whenever `Run` reaches the process handoff, the environment it passes
to `syscall.Exec` is the inherited environment, then
`AWS_DEFAULT_PROFILE=<name of the resolved profile>`, then the `Environ()` of
the credential value of the chosen path, and nothing else.  With the session
bypassed that value is what the keyring returns for the profile; with a
session it is what the session provider returns.  In both cases the run
calls `syscall.Exec` once, with exactly that environment, and the result it
acts on is the result of that call.  Conversely every call of `syscall.Exec`
in a run is of this form. -/
theorem Run_exec_environment (w : World) (c : ExecCommand) (args : List String) :
    (∀ f file rest P cr bin,
      w.flagParse (defaultFlags w) args = .ok f (file :: rest) →
      profileConfigOf w c [] f.profileName = .ok P →
      (f.session = false ∨ f.noSession = true) →
      keyringOf w c [Event.profile f.profileName (.ok P)] P = .ok cr →
      w.LookPath [Event.profile f.profileName (.ok P), Event.keyringRead P (.ok cr)] file
        = .ok bin →
      ∃ tail, (Run w c args).trace
          = [Event.profile f.profileName (.ok P), Event.keyringRead P (.ok cr)]
            ++ [Event.lookPath file (.ok bin),
              Event.exec bin (file :: rest)
                (inherited w c ++ ["AWS_DEFAULT_PROFILE=" ++ P.Name] ++ w.credsEnviron cr)
                (w.Exec ([Event.profile f.profileName (.ok P), Event.keyringRead P (.ok cr)]
                    ++ [Event.lookPath file (.ok bin)]) bin (file :: rest)
                  (inherited w c ++ ["AWS_DEFAULT_PROFILE=" ++ P.Name] ++ w.credsEnviron cr))]
            ++ tail ∧
        execCalls (Run w c args).trace = 1) ∧
    (∀ f file rest P sc h2 bin,
      w.flagParse (defaultFlags w) args = .ok f (file :: rest) →
      profileConfigOf w c [] f.profileName = .ok P →
      f.session = true → f.noSession = false →
      SessionAnswer w c f P (.ok sc) h2 →
      w.LookPath (h2 ++ [Event.sessionRet (.ok sc)]) file = .ok bin →
      ∃ tail, (Run w c args).trace
          = h2 ++ [Event.sessionRet (.ok sc)]
            ++ [Event.lookPath file (.ok bin),
              Event.exec bin (file :: rest)
                (inherited w c ++ ["AWS_DEFAULT_PROFILE=" ++ P.Name] ++ w.sessEnviron sc)
                (w.Exec (h2 ++ [Event.sessionRet (.ok sc)] ++ [Event.lookPath file (.ok bin)])
                  bin (file :: rest)
                  (inherited w c ++ ["AWS_DEFAULT_PROFILE=" ++ P.Name] ++ w.sessEnviron sc))]
            ++ tail ∧
        execCalls (Run w c args).trace = 1) ∧
    (∀ bin argv envv res, Event.exec bin argv envv res ∈ (Run w c args).trace →
      ∃ f file rest P pre cenv,
        w.flagParse (defaultFlags w) args = .ok f (file :: rest) ∧
        profileConfigOf w c [] f.profileName = .ok P ∧
        CredOk w c f P pre cenv ∧
        w.LookPath pre file = .ok bin ∧
        argv = file :: rest ∧
        envv = inherited w c ++ ["AWS_DEFAULT_PROFILE=" ++ P.Name] ++ cenv ∧
        res = w.Exec (pre ++ [Event.lookPath file (.ok bin)]) bin argv envv) := by
  refine ⟨?_, ?_, Run_exec_event w c args⟩
  · intro f file rest P cr bin hp hprof hflag hread hlook
    have hflag1 : (f.session && !f.noSession) = false := by
      cases hs : f.session <;> cases hn : f.noSession <;> simp_all
    obtain ⟨tail, h1, h2, _⟩ := Run_handoff w c args f file rest P _ _ bin hp hprof
      (CredOk.direct cr hflag1 hread) hlook
    exact ⟨tail, h1, h2⟩
  · intro f file rest P sc h2 bin hp hprof hs hn hsess hlook
    have hflag1 : (f.session && !f.noSession) = true := by simp [hs, hn]
    obtain ⟨cb, e1, _⟩ := SessionReturns.trace hsess
    subst e1
    obtain ⟨tail, h1, h3, _⟩ := Run_handoff w c args f file rest P _ _ bin hp hprof
      (CredOk.session cb sc hflag1 hsess) hlook
    exact ⟨tail, h1, h3⟩

/-- C8. When a run reaches the process handoff with command list
`file :: rest` (what `flagSet.Args()` returned, non-empty) and
`exec.LookPath(file)` returns `bin`, the run calls `syscall.Exec` with the
executable path `bin` and the argument vector `file :: rest`: the command
list itself, same length, same order, `file` as `argv[0]`.  It is the only
call of `syscall.Exec` of the run, and the result the run acts on is the
result of that call. -/
theorem Run_exec_argv (w : World) (c : ExecCommand) (args : List String) (f : Flags)
    (file : String) (rest : List String) (P : Profile) (pre : Hist) (cenv : List String)
    (bin : String)
    (hp : w.flagParse (defaultFlags w) args = .ok f (file :: rest))
    (hprof : profileConfigOf w c [] f.profileName = .ok P)
    (hcred : CredOk w c f P pre cenv)
    (hlook : w.LookPath pre file = .ok bin) :
    (∃ envv tail, (Run w c args).trace = pre ++ [Event.lookPath file (.ok bin),
        Event.exec bin (file :: rest) envv
          (w.Exec (pre ++ [Event.lookPath file (.ok bin)]) bin (file :: rest) envv)] ++ tail) ∧
    execCalls (Run w c args).trace = 1 ∧
    (∀ bin1 argv1 envv1 res1, Event.exec bin1 argv1 envv1 res1 ∈ (Run w c args).trace →
      bin1 = bin ∧ argv1 = file :: rest ∧ argv1.length = rest.length + 1 ∧
      argv1.head? = some file) := by
  obtain ⟨tail, h1, h2, h3⟩ := Run_handoff w c args f file rest P pre cenv bin hp hprof hcred
    hlook
  refine ⟨⟨_, tail, h1⟩, h2, ?_⟩
  intro bin1 argv1 envv1 res1 hmem
  obtain ⟨e1, e2, _, _⟩ := h3 bin1 argv1 envv1 res1 hmem
  subst e1 e2
  exact ⟨rfl, rfl, rfl, rfl⟩

/-- C4. With a non-empty command list, when the profile resolver returns an
error for the profile name, `Run` returns 1 and its whole trace is the failed
resolver call followed by the error text: no read of the secret store, no
call of the session provider, no lookup and no exec. -/
theorem Run_unknown_profile (w : World) (c : ExecCommand) (args : List String)
    (f : Flags) (cmdArgs : List String) (err : Error)
    (hp : w.flagParse (defaultFlags w) args = .ok f cmdArgs)
    (hne : cmdArgs ≠ [])
    (hprof : profileConfigOf w c [] f.profileName = .error err) :
    (Run w c args).status = .returned 1 ∧
    (Run w c args).trace =
      [Event.profile f.profileName (.error err), Event.ui .run .output err] ∧
    storeReads (Run w c args).trace = 0 ∧ sessionCalls (Run w c args).trace = 0 ∧
    tokenCalls (Run w c args).trace = 0 ∧ lookPathCalls (Run w c args).trace = 0 ∧
    execCalls (Run w c args).trace = 0 := by
  have hpath := Run_path w c args
  generalize (Run w c args).status = st at *
  generalize (Run w c args).cmd.env = en at *
  generalize (Run w c args).trace = tr at *
  cases hpath <;> simp_all [storeReads, sessionCalls, tokenCalls, lookPathCalls, execCalls,
    Event.isStoreRead, Event.isSessionCall, Event.isTokenCall, Event.isLookPath, Event.isExec]

/-- C2. When `session` is false or `no-session` is true, a run makes no call
of the session provider and no call of the token agent.  If the command list
is non-empty and the profile resolves to `P`, the secret store is read
exactly once, directly (line 104) and for `P`. -/
theorem Run_session_bypassed (w : World) (c : ExecCommand) (args : List String)
    (f : Flags) (cmdArgs : List String)
    (hp : w.flagParse (defaultFlags w) args = .ok f cmdArgs)
    (hflag : f.session = false ∨ f.noSession = true) :
    sessionCalls (Run w c args).trace = 0 ∧
    tokenCalls (Run w c args).trace = 0 ∧
    (∀ P, cmdArgs ≠ [] → profileConfigOf w c [] f.profileName = .ok P →
      (Run w c args).trace.filter Event.isStoreRead =
        [Event.keyringRead P (keyringOf w c [Event.profile f.profileName (.ok P)] P)]) := by
  have hflag1 : (f.session && !f.noSession) = false := by
    cases hs : f.session <;> cases hn : f.noSession <;> simp_all
  have hpath := Run_path w c args
  generalize (Run w c args).status = st at *
  generalize (Run w c args).cmd.env = en at *
  generalize (Run w c args).trace = tr at *
  cases hpath with
  | parseFailed usage err hp1 => rw [hp] at hp1; exact ParseOutcome.noConfusion hp1
  | noCommand f1 hp1 =>
    rw [hp] at hp1
    injection hp1 with h1 h2
    subst h1 h2
    simp [sessionCalls, tokenCalls, Event.isSessionCall, Event.isTokenCall]
  | profileFailed f1 file1 rest err hp1 hprof =>
    rw [hp] at hp1
    injection hp1 with h1 h2
    subst h1 h2
    simp [sessionCalls, tokenCalls, Event.isSessionCall, Event.isTokenCall, hprof]
  | readFailed f1 file1 rest P err hp1 hprof hflag2 hread =>
    rw [hp] at hp1
    injection hp1 with h1 h2
    subst h1 h2
    simp [sessionCalls, tokenCalls, Event.isSessionCall, Event.isTokenCall, hprof, hread,
      Event.isStoreRead]
  | sessionFailed f1 file1 rest P err cb hp1 hprof hflag2 hcb =>
    rw [hp] at hp1
    injection hp1 with h1 h2
    subst h1 h2
    rw [hflag1] at hflag2
    exact Bool.noConfusion hflag2
  | lookupFailed f1 file1 rest P pre cenv err hp1 hprof hcred hlook =>
    rw [hp] at hp1
    injection hp1 with h1 h2
    subst h1 h2
    rw [hcred.direct_trace hflag1]
    simp [sessionCalls, tokenCalls, Event.isSessionCall, Event.isTokenCall, hprof,
      Event.isStoreRead]
  | execFailed f1 file1 rest P pre cenv bin err hp1 hprof hcred hlook =>
    rw [hp] at hp1
    injection hp1 with h1 h2
    subst h1 h2
    rw [hcred.direct_trace hflag1]
    simp [sessionCalls, tokenCalls, Event.isSessionCall, Event.isTokenCall, hprof,
      Event.isStoreRead]
  | execReturned f1 file1 rest P pre cenv bin hp1 hprof hcred hlook =>
    rw [hp] at hp1
    injection hp1 with h1 h2
    subst h1 h2
    rw [hcred.direct_trace hflag1]
    simp [sessionCalls, tokenCalls, Event.isSessionCall, Event.isTokenCall, hprof,
      Event.isStoreRead]

/-- C3, amended. When `session` is true, `no-session` is false, the command
list is non-empty and the profile resolves to `P`, a run makes exactly one
call of the session provider, with the configuration built from `P` and the
requested duration. -/
theorem Run_session_once (w : World) (c : ExecCommand) (args : List String)
    (f : Flags) (cmdArgs : List String) (P : Profile)
    (hp : w.flagParse (defaultFlags w) args = .ok f cmdArgs)
    (hne : cmdArgs ≠ [])
    (hprof : profileConfigOf w c [] f.profileName = .ok P)
    (hs : f.session = true) (hn : f.noSession = false) :
    sessionCalls (Run w c args).trace = 1 ∧
    Event.sessionCall ⟨P, f.sessionDuration⟩ ∈ (Run w c args).trace := by
  have hflag1 : (f.session && !f.noSession) = true := by simp [hs, hn]
  have hpath := Run_path w c args
  generalize (Run w c args).status = st at *
  generalize (Run w c args).cmd.env = en at *
  generalize (Run w c args).trace = tr at *
  have key : ∀ (pre : Hist) (cenv : List String), CredOk w c f P pre cenv →
      sessionCalls pre = 1 ∧ Event.sessionCall ⟨P, f.sessionDuration⟩ ∈ pre := by
    intro pre cenv hcred
    refine ⟨by rw [hcred.sessionCalls_eq, if_pos hflag1], ?_⟩
    cases hcred with
    | direct cr hflag2 hread => rw [hflag1] at hflag2; exact Bool.noConfusion hflag2
    | session cb sc hflag2 hcb => simp
  cases hpath with
  | parseFailed usage err hp1 => rw [hp] at hp1; exact ParseOutcome.noConfusion hp1
  | noCommand f1 hp1 =>
    rw [hp] at hp1
    injection hp1 with h1 h2
    exact absurd h2 hne
  | profileFailed f1 file1 rest err hp1 hprof1 =>
    rw [hp] at hp1
    injection hp1 with h1 h2
    subst h1 h2
    rw [hprof] at hprof1
    exact Except.noConfusion hprof1
  | readFailed f1 file1 rest P1 err hp1 hprof1 hflag2 hread =>
    rw [hp] at hp1
    injection hp1 with h1 h2
    subst h1 h2
    rw [hflag1] at hflag2
    exact Bool.noConfusion hflag2
  | sessionFailed f1 file1 rest P1 err cb hp1 hprof1 hflag2 hcb =>
    rw [hp] at hp1
    injection hp1 with h1 h2
    subst h1 h2
    rw [hprof] at hprof1
    injection hprof1 with h3
    subst h3
    have h0 : cb.countP Event.isSessionCall = 0 :=
      callback_countP hcb _
        (by intro ev hev; cases ev <;> simp_all [Event.isCallback, Event.isSessionCall])
    simp [sessionCalls, Event.isSessionCall, List.countP_append, List.countP_cons, h0]
  | lookupFailed f1 file1 rest P1 pre cenv err hp1 hprof1 hcred hlook =>
    rw [hp] at hp1
    injection hp1 with h1 h2
    subst h1 h2
    rw [hprof] at hprof1
    injection hprof1 with h3
    subst h3
    obtain ⟨k1, k2⟩ := key pre cenv hcred
    simp only [sessionCalls] at k1 ⊢
    simp [List.countP_append, List.countP_cons, k1, k2, Event.isSessionCall]
  | execFailed f1 file1 rest P1 pre cenv bin err hp1 hprof1 hcred hlook =>
    rw [hp] at hp1
    injection hp1 with h1 h2
    subst h1 h2
    rw [hprof] at hprof1
    injection hprof1 with h3
    subst h3
    obtain ⟨k1, k2⟩ := key pre cenv hcred
    simp only [sessionCalls] at k1 ⊢
    simp [List.countP_append, List.countP_cons, k1, k2, Event.isSessionCall]
  | execReturned f1 file1 rest P1 pre cenv bin hp1 hprof1 hcred hlook =>
    rw [hp] at hp1
    injection hp1 with h1 h2
    subst h1 h2
    rw [hprof] at hprof1
    injection hprof1 with h3
    subst h3
    obtain ⟨k1, k2⟩ := key pre cenv hcred
    simp only [sessionCalls] at k1 ⊢
    simp [List.countP_append, List.countP_cons, k1, k2, Event.isSessionCall]

/-- C5. When the search-path lookup fails, `Run` returns 1 and never calls
`syscall.Exec`.  More generally, every call of `syscall.Exec` comes after a
successful profile resolution, a successful credential step (keyring read or
session request) and a successful lookup whose result is the executable it
is given, with no failed step before it. -/
theorem Run_exec_guard (w : World) (c : ExecCommand) (args : List String) :
    (∀ file err, Event.lookPath file (.error err) ∈ (Run w c args).trace →
      (Run w c args).status = .returned 1 ∧ execCalls (Run w c args).trace = 0) ∧
    (∀ bin argv envv res, Event.exec bin argv envv res ∈ (Run w c args).trace →
      ∃ pre post name P file,
        (Run w c args).trace = pre ++ Event.exec bin argv envv res :: post ∧
        Event.profile name (.ok P) ∈ pre ∧
        ((∃ cr, Event.keyringRead P (.ok cr) ∈ pre) ∨
          (∃ sc, Event.sessionRet (.ok sc) ∈ pre)) ∧
        Event.lookPath file (.ok bin) ∈ pre ∧
        (∀ ev ∈ pre, ev.failure = none) ∧ execCalls pre = 0) := by
  have hpath := Run_path w c args
  generalize (Run w c args).status = st at *
  generalize (Run w c args).cmd.env = en at *
  generalize (Run w c args).trace = tr at *
  have credEv : ∀ (f : Flags) (P : Profile) (pre : Hist) (cenv : List String),
      CredOk w c f P pre cenv →
      ((∃ cr, Event.keyringRead P (.ok cr) ∈ pre) ∨ (∃ sc, Event.sessionRet (.ok sc) ∈ pre)) := by
    intro f P pre cenv hcred
    rcases hcred.source with ⟨_, _, sc, h3, _⟩ | ⟨_, cr, h3, _, _⟩
    · exact Or.inr ⟨sc, h3⟩
    · exact Or.inl ⟨cr, h3⟩
  cases hpath with
  | parseFailed usage err hp => cases usage <;> simp
  | noCommand f hp => simp
  | profileFailed f file1 rest err hp hprof => simp
  | readFailed f file1 rest P err hp hprof hflag hread => simp
  | sessionFailed f file1 rest P err cb hp hprof hflag hcb =>
    refine ⟨?_, ?_⟩
    · intro file err1 hmem
      simp at hmem
      exact absurd hmem (callback_not_mem hcb _ rfl)
    · intro bin argv envv res hmem
      simp at hmem
      exact absurd hmem (callback_not_mem hcb _ rfl)
  | lookupFailed f file1 rest P pre cenv err hp hprof hcred hlook =>
    refine ⟨?_, ?_⟩
    · intro file err1 hmem
      have := hcred.execCalls_eq
      simp only [execCalls] at this ⊢
      simp [List.countP_append, List.countP_cons, this, Event.isExec]
    · intro bin argv envv res hmem
      simp at hmem
      exact absurd hmem (hcred.not_mem _ (Or.inr rfl))
  | execFailed f file1 rest P pre cenv bin1 err hp hprof hcred hlook =>
    refine ⟨?_, ?_⟩
    · intro file err1 hmem
      simp at hmem
      exact absurd hmem (hcred.not_mem _ (Or.inl rfl))
    · intro bin argv envv res hmem
      simp at hmem
      rcases hmem with hmem | ⟨rfl, rfl, rfl, rfl⟩
      · exact absurd hmem (hcred.not_mem _ (Or.inr rfl))
      · refine ⟨pre ++ [Event.lookPath file1 (.ok bin)], [Event.ui .run .error err],
          f.profileName, P, file1, by simp, ?_, ?_, by simp, ?_, ?_⟩
        · exact List.mem_append_left _ hcred.profile_mem
        · rcases credEv f P pre cenv hcred with ⟨cr, h⟩ | ⟨sc, h⟩
          · exact Or.inl ⟨cr, List.mem_append_left _ h⟩
          · exact Or.inr ⟨sc, List.mem_append_left _ h⟩
        · intro ev hev
          rcases List.mem_append.1 hev with h | h
          · exact hcred.no_failure ev h
          · simp at h; subst h; rfl
        · have := hcred.execCalls_eq
          simp only [execCalls] at this ⊢
          simp [List.countP_append, List.countP_cons, this, Event.isExec]
  | execReturned f file1 rest P pre cenv bin1 hp hprof hcred hlook =>
    refine ⟨?_, ?_⟩
    · intro file err1 hmem
      simp at hmem
      exact absurd hmem (hcred.not_mem _ (Or.inl rfl))
    · intro bin argv envv res hmem
      simp at hmem
      rcases hmem with hmem | ⟨rfl, rfl, rfl, rfl⟩
      · exact absurd hmem (hcred.not_mem _ (Or.inr rfl))
      · refine ⟨pre ++ [Event.lookPath file1 (.ok bin)], [],
          f.profileName, P, file1, by simp, ?_, ?_, by simp, ?_, ?_⟩
        · exact List.mem_append_left _ hcred.profile_mem
        · rcases credEv f P pre cenv hcred with ⟨cr, h⟩ | ⟨sc, h⟩
          · exact Or.inl ⟨cr, List.mem_append_left _ h⟩
          · exact Or.inr ⟨sc, List.mem_append_left _ h⟩
        · intro ev hev
          rcases List.mem_append.1 hev with h | h
          · exact hcred.no_failure ev h
          · simp at h; subst h; rfl
        · have := hcred.execCalls_eq
          simp only [execCalls] at this ⊢
          simp [List.countP_append, List.countP_cons, this, Event.isExec]

/-- C6, amended. Take a run whose arguments parse to a non-empty command
list.  When one of the five steps (profile resolution, keyring read, session
request, executable lookup, exec) returns error `err`, `Run` returns 1, the
trace ends with the failed call followed by one message of `Run` whose text
is `err`, so no later step is performed and none is retried, and `Run`
itself writes nothing else.  Besides that message the user interface
receives only the empty output lines of `GetToken`, one for each token
prompt that was answered during the session request: none when the failure
comes before the credential step or the session is bypassed. -/
theorem Run_failure_reported (w : World) (c : ExecCommand) (args : List String) (f : Flags)
    (file : String) (rest : List String)
    (hp : w.flagParse (defaultFlags w) args = .ok f (file :: rest)) :
    (∀ err, profileConfigOf w c [] f.profileName = .error err →
      (Run w c args).status = .returned 1 ∧
      (Run w c args).trace
        = [Event.profile f.profileName (.error err), Event.ui .run .output err] ∧
      runMessages (Run w c args).trace = [err] ∧
      written (Run w c args).trace = [(Channel.output, err)]) ∧
    (∀ P, profileConfigOf w c [] f.profileName = .ok P →
      (∀ err, (f.session = false ∨ f.noSession = true) →
        keyringOf w c [Event.profile f.profileName (.ok P)] P = .error err →
        (Run w c args).status = .returned 1 ∧
        (Run w c args).trace = [Event.profile f.profileName (.ok P),
          Event.keyringRead P (.error err), Event.ui .run .error err] ∧
        runMessages (Run w c args).trace = [err] ∧
        written (Run w c args).trace = [(Channel.error, err)]) ∧
      (∀ err h2, f.session = true → f.noSession = false →
        SessionAnswer w c f P (.error err) h2 →
        (Run w c args).status = .returned 1 ∧
        (Run w c args).trace
          = h2 ++ [Event.sessionRet (.error err), Event.ui .run .error err] ∧
        runMessages (Run w c args).trace = [err] ∧
        written (Run w c args).trace
          = List.replicate (answered (Run w c args).trace) (Channel.output, "")
            ++ [(Channel.error, err)]) ∧
      (∀ pre cenv, CredOk w c f P pre cenv →
        (∀ err, w.LookPath pre file = .error err →
          (Run w c args).status = .returned 1 ∧
          (Run w c args).trace
            = pre ++ [Event.lookPath file (.error err), Event.ui .run .error err] ∧
          runMessages (Run w c args).trace = [err] ∧
          written (Run w c args).trace
            = List.replicate (answered (Run w c args).trace) (Channel.output, "")
              ++ [(Channel.error, err)]) ∧
        (∀ bin err, w.LookPath pre file = .ok bin →
          w.Exec (pre ++ [Event.lookPath file (.ok bin)]) bin (file :: rest)
            (inherited w c ++ ["AWS_DEFAULT_PROFILE=" ++ P.Name] ++ cenv) = some err →
          (Run w c args).status = .returned 1 ∧
          (Run w c args).trace = pre ++ [Event.lookPath file (.ok bin),
            Event.exec bin (file :: rest)
              (inherited w c ++ ["AWS_DEFAULT_PROFILE=" ++ P.Name] ++ cenv) (some err),
            Event.ui .run .error err] ∧
          runMessages (Run w c args).trace = [err] ∧
          written (Run w c args).trace
            = List.replicate (answered (Run w c args).trace) (Channel.output, "")
              ++ [(Channel.error, err)]))) := by
  refine ⟨?_, ?_⟩
  · intro err hprof
    rcases (Run_path w c args).parsed hp with ⟨err1, h1, hst, _, htr⟩ | ⟨P1, h1, _⟩
    · rw [hprof] at h1
      injection h1 with h1
      subst h1
      refine ⟨hst, htr, ?_, ?_⟩ <;> rw [htr] <;> rfl
    · rw [hprof] at h1; exact Except.noConfusion h1
  · intro P hprof
    refine ⟨?_, ?_, ?_⟩
    · intro err hflag hread
      have hflag1 : (f.session && !f.noSession) = false := by
        cases hs : f.session <;> cases hn : f.noSession <;> simp_all
      obtain ⟨hst, htr⟩ := (Run_credentials_failed w c args f file rest P hp hprof).1 err
        hflag1 hread
      refine ⟨hst, htr, ?_, ?_⟩ <;> rw [htr] <;> rfl
    · intro err h2 hs hn hsess
      have hflag1 : (f.session && !f.noSession) = true := by simp [hs, hn]
      obtain ⟨hst, htr⟩ := (Run_credentials_failed w c args f file rest P hp hprof).2 err h2
        hflag1 hsess
      obtain ⟨q1, q2⟩ := SessionAnswer.quiet_trace hsess
      have key := reported h2 [Event.sessionRet (.error err)] .error err q1 q2 rfl rfl rfl
      rw [List.append_assoc] at key
      refine ⟨hst, htr, ?_, ?_⟩
      · rw [htr]; exact key.1
      · rw [htr]; exact key.2
    · intro pre cenv hcred
      obtain ⟨q1, q2⟩ := hcred.quiet
      obtain ⟨_, hrun⟩ := Run_after_credentials w c args f file rest P pre cenv hp hprof hcred
      refine ⟨?_, ?_⟩
      · intro err hlook
        rcases hrun with ⟨err1, hl1, hst, htr⟩ | ⟨bin1, hl1, _⟩
        · rw [hlook] at hl1
          injection hl1 with hl1
          subst hl1
          have key := reported pre [Event.lookPath file (.error err)] .error err q1 q2
            rfl rfl rfl
          rw [List.append_assoc] at key
          refine ⟨hst, htr, ?_, ?_⟩
          · rw [htr]; exact key.1
          · rw [htr]; exact key.2
        · rw [hlook] at hl1; exact Except.noConfusion hl1
      · intro bin err hlook hexec
        rcases hrun with ⟨err1, hl1, _⟩ | ⟨bin1, hl1, hx⟩
        · rw [hlook] at hl1; exact Except.noConfusion hl1
        · rw [hlook] at hl1
          injection hl1 with hl1
          subst hl1
          rcases hx with ⟨err1, hx1, hst, htr⟩ | ⟨hx1, _⟩
          · rw [hexec] at hx1
            injection hx1 with hx1
            subst hx1
            have key := reported pre [Event.lookPath file (.ok bin),
              Event.exec bin (file :: rest)
                (inherited w c ++ ["AWS_DEFAULT_PROFILE=" ++ P.Name] ++ cenv) (some err)]
              .error err q1 q2 rfl rfl rfl
            rw [List.append_assoc] at key
            refine ⟨hst, htr, ?_, ?_⟩
            · rw [htr]; exact key.1
            · rw [htr]; exact key.2
          · rw [hexec] at hx1; exact Option.noConfusion hx1

/-- C7, amended. The profile indicator is appended to `c.env` as soon as the
profile is resolved (line 82), before the credential step; the credential
assignments are appended only after the credential step has succeeded.  So
after any run `c.env` is either untouched, or the inherited environment
followed by the profile indicator, or that followed by the `Environ()` of a
credential value whose successful read or session request is in the trace.
On every run in which the credential step fails, `c.env` is the inherited
environment followed by the profile indicator alone, and `syscall.Exec` is
never called. -/
theorem Run_env_after_credentials (w : World) (c : ExecCommand) (args : List String) :
    ((Run w c args).cmd.env = c.env ∨
      ∃ name P, Event.profile name (.ok P) ∈ (Run w c args).trace ∧
        ((Run w c args).cmd.env =
            some (inherited w c ++ ["AWS_DEFAULT_PROFILE=" ++ P.Name]) ∨
          (∃ cr, Event.keyringRead P (.ok cr) ∈ (Run w c args).trace ∧
            (Run w c args).cmd.env =
              some (inherited w c ++ ["AWS_DEFAULT_PROFILE=" ++ P.Name] ++ w.credsEnviron cr)) ∨
          (∃ sc, Event.sessionRet (.ok sc) ∈ (Run w c args).trace ∧
            (Run w c args).cmd.env =
              some (inherited w c ++ ["AWS_DEFAULT_PROFILE=" ++ P.Name] ++ w.sessEnviron sc)))) ∧
    (((∃ P err, Event.keyringRead P (.error err) ∈ (Run w c args).trace) ∨
        (∃ err, Event.sessionRet (.error err) ∈ (Run w c args).trace)) →
      ∃ name P, Event.profile name (.ok P) ∈ (Run w c args).trace ∧
        (Run w c args).cmd.env = some (inherited w c ++ ["AWS_DEFAULT_PROFILE=" ++ P.Name]) ∧
        execCalls (Run w c args).trace = 0) :=
  ⟨Run_env_shape w c args, Run_env_on_failure w c args⟩

/-- C9. For every serial, `GetToken` asks the secret prompt exactly once,
with the query built from the serial.  If the prompt returns a code,
`GetToken` returns that code with a `nil` error and its only write to the
user interface is the empty string on the ordinary output; if the prompt
returns an error, `GetToken` returns the empty string with that error and
writes nothing.  What it writes does not depend on the code entered. -/
theorem GetToken_prompt_once (w : World) (c : ExecCommand) (h : Hist) (serial : String) :
    prompts (GetToken w c h serial).2 = ["Enter token code for " ++ w.quote serial ++ ":"] ∧
    tokenCalls (GetToken w c h serial).2 = 1 ∧
    (∀ token, c.Ui.AskSecret (h ++ [Event.getToken serial])
        ("Enter token code for " ++ w.quote serial ++ ":") = .ok token →
      (GetToken w c h serial).1 = (token, none) ∧
      written (GetToken w c h serial).2 = [(Channel.output, "")]) ∧
    (∀ err, c.Ui.AskSecret (h ++ [Event.getToken serial])
        ("Enter token code for " ++ w.quote serial ++ ":") = .error err →
      (GetToken w c h serial).1 = ("", some err) ∧
      written (GetToken w c h serial).2 = []) := by
  cases hask : c.Ui.AskSecret (h ++ [Event.getToken serial])
      ("Enter token code for " ++ w.quote serial ++ ":") with
  | error err =>
    rw [GetToken_error w c h serial err hask]
    simp [prompts, tokenCalls, written, Event.isTokenCall, Event.writeOf]
  | ok token =>
    rw [GetToken_ok w c h serial token hask]
    simp [prompts, tokenCalls, written, Event.isTokenCall, Event.writeOf]

/-! ## The claims on examples -/

/-- C1 on the examples of the spec: profile `dev`, session disabled, the
keyring returns the pair `AK`, `SK`; and profile `dev` with a session, whose
environment holds the session-scoped fields. -/
theorem Run_exec_environment_witness :
    (demoWorld.flagParse (defaultFlags demoWorld) directArgs = .ok directFlags ["env", "-i"] ∧
      keyringOf demoWorld demoCmd [Event.profile directFlags.profileName (.ok devProfile)]
        devProfile = .ok ⟨"AK", "SK"⟩ ∧
      inherited demoWorld demoCmd ++ ["AWS_DEFAULT_PROFILE=" ++ devProfile.Name]
        ++ demoWorld.credsEnviron ⟨"AK", "SK"⟩ = directEnv ∧
      ∃ tail, (Run demoWorld demoCmd directArgs).trace
          = [Event.profile directFlags.profileName (.ok devProfile),
              Event.keyringRead devProfile (.ok ⟨"AK", "SK"⟩)]
            ++ [Event.lookPath "env" (.ok "/usr/bin/env"),
              Event.exec "/usr/bin/env" ["env", "-i"]
                (inherited demoWorld demoCmd ++ ["AWS_DEFAULT_PROFILE=" ++ devProfile.Name]
                  ++ demoWorld.credsEnviron ⟨"AK", "SK"⟩)
                (demoWorld.Exec ([Event.profile directFlags.profileName (.ok devProfile),
                    Event.keyringRead devProfile (.ok ⟨"AK", "SK"⟩)]
                    ++ [Event.lookPath "env" (.ok "/usr/bin/env")]) "/usr/bin/env" ["env", "-i"]
                  (inherited demoWorld demoCmd ++ ["AWS_DEFAULT_PROFILE=" ++ devProfile.Name]
                    ++ demoWorld.credsEnviron ⟨"AK", "SK"⟩))]
            ++ tail ∧
        execCalls (Run demoWorld demoCmd directArgs).trace = 1) ∧
    (demoWorld.flagParse (defaultFlags demoWorld) sessionArgs = .ok sessionFlags ["env", "-i"] ∧
      SessionAnswer demoWorld demoCmd sessionFlags devProfile (.ok ⟨"SAK", "SSK", "TOK"⟩)
        (sessionTrace "123456") ∧
      inherited demoWorld demoCmd ++ ["AWS_DEFAULT_PROFILE=" ++ devProfile.Name]
        ++ demoWorld.sessEnviron ⟨"SAK", "SSK", "TOK"⟩ = sessionEnv ∧
      ∃ tail, (Run demoWorld demoCmd sessionArgs).trace
          = sessionTrace "123456" ++ [Event.sessionRet (.ok ⟨"SAK", "SSK", "TOK"⟩)]
            ++ [Event.lookPath "env" (.ok "/usr/bin/env"),
              Event.exec "/usr/bin/env" ["env", "-i"]
                (inherited demoWorld demoCmd ++ ["AWS_DEFAULT_PROFILE=" ++ devProfile.Name]
                  ++ demoWorld.sessEnviron ⟨"SAK", "SSK", "TOK"⟩)
                (demoWorld.Exec (sessionTrace "123456"
                    ++ [Event.sessionRet (.ok ⟨"SAK", "SSK", "TOK"⟩)]
                    ++ [Event.lookPath "env" (.ok "/usr/bin/env")]) "/usr/bin/env" ["env", "-i"]
                  (inherited demoWorld demoCmd ++ ["AWS_DEFAULT_PROFILE=" ++ devProfile.Name]
                    ++ demoWorld.sessEnviron ⟨"SAK", "SSK", "TOK"⟩))]
            ++ tail ∧
        execCalls (Run demoWorld demoCmd sessionArgs).trace = 1) :=
  ⟨⟨by decide, by decide, by decide,
      (Run_exec_environment demoWorld demoCmd directArgs).1 directFlags "env" ["-i"] devProfile
        ⟨"AK", "SK"⟩ "/usr/bin/env" (by decide) (by decide) (by decide) (by decide)
        (by decide)⟩,
    ⟨by decide, demo_session_accepted, by decide,
      (Run_exec_environment demoWorld demoCmd sessionArgs).2.1 sessionFlags "env" ["-i"]
        devProfile ⟨"SAK", "SSK", "TOK"⟩ (sessionTrace "123456") "/usr/bin/env" (by decide)
        (by decide) (by decide) (by decide) demo_session_accepted (by decide)⟩⟩

/-- C2 on an example: with `--no-session` the provider and the token agent
are not called and the keyring is read once. -/
theorem Run_session_bypassed_witness :
    demoWorld.flagParse (defaultFlags demoWorld) directArgs = .ok directFlags ["env", "-i"] ∧
    (directFlags.session = false ∨ directFlags.noSession = true) ∧
    sessionCalls (Run demoWorld demoCmd directArgs).trace = 0 ∧
    tokenCalls (Run demoWorld demoCmd directArgs).trace = 0 ∧
    (∀ P, ["env", "-i"] ≠ [] →
      profileConfigOf demoWorld demoCmd [] directFlags.profileName = .ok P →
      (Run demoWorld demoCmd directArgs).trace.filter Event.isStoreRead =
        [Event.keyringRead P
          (keyringOf demoWorld demoCmd [Event.profile directFlags.profileName (.ok P)] P)]) :=
  ⟨by decide, by decide,
    Run_session_bypassed demoWorld demoCmd directArgs directFlags ["env", "-i"]
      (by decide) (by decide)⟩

/-- C3 as stated fails: with `session` true and `no-session` false, a run
whose profile does not resolve makes no call of the session provider. -/
theorem Run_session_once_counterexample :
    demoWorld.flagParse (defaultFlags demoWorld) unknownArgs = .ok unknownFlags ["env"] ∧
    unknownFlags.session = true ∧ unknownFlags.noSession = false ∧
    (Run demoWorld demoCmd unknownArgs).status = .returned 1 ∧
    sessionCalls (Run demoWorld demoCmd unknownArgs).trace = 0 ∧
    sessionCalls (Run demoWorld demoCmd unknownArgs).trace ≠ 1 := by
  decide

/-- C3, amended, on an example: one call of the provider. -/
theorem Run_session_once_witness :
    demoWorld.flagParse (defaultFlags demoWorld) sessionArgs = .ok sessionFlags ["env", "-i"] ∧
    profileConfigOf demoWorld demoCmd [] sessionFlags.profileName = .ok ⟨"dev", []⟩ ∧
    sessionCalls (Run demoWorld demoCmd sessionArgs).trace = 1 ∧
    Event.sessionCall ⟨⟨"dev", []⟩, sessionFlags.sessionDuration⟩
      ∈ (Run demoWorld demoCmd sessionArgs).trace :=
  ⟨by decide, by decide,
    Run_session_once demoWorld demoCmd sessionArgs sessionFlags ["env", "-i"] ⟨"dev", []⟩
      (by decide) (by decide) (by decide) (by decide) (by decide)⟩

/-- C4 on the example of the spec: the profile is unknown. -/
theorem Run_unknown_profile_witness :
    demoWorld.flagParse (defaultFlags demoWorld) unknownArgs = .ok unknownFlags ["env"] ∧
    profileConfigOf demoWorld demoCmd [] unknownFlags.profileName = .error "profile not found" ∧
    (Run demoWorld demoCmd unknownArgs).status = .returned 1 ∧
    (Run demoWorld demoCmd unknownArgs).trace =
      [Event.profile unknownFlags.profileName (.error "profile not found"),
        Event.ui .run .output "profile not found"] ∧
    storeReads (Run demoWorld demoCmd unknownArgs).trace = 0 ∧
    sessionCalls (Run demoWorld demoCmd unknownArgs).trace = 0 ∧
    tokenCalls (Run demoWorld demoCmd unknownArgs).trace = 0 ∧
    lookPathCalls (Run demoWorld demoCmd unknownArgs).trace = 0 ∧
    execCalls (Run demoWorld demoCmd unknownArgs).trace = 0 :=
  ⟨by decide, by decide,
    Run_unknown_profile demoWorld demoCmd unknownArgs unknownFlags ["env"] "profile not found"
      (by decide) (by decide) (by decide)⟩

/-- C5 on two examples: a command that is not on the search path, and a
command that is executed. -/
theorem Run_exec_guard_witness :
    (Event.lookPath "nosuch" (.error "executable file not found in $PATH")
        ∈ (Run demoWorld demoCmd noSuchArgs).trace ∧
      (Run demoWorld demoCmd noSuchArgs).status = .returned 1 ∧
      execCalls (Run demoWorld demoCmd noSuchArgs).trace = 0) ∧
    (Event.exec "/usr/bin/env" ["env", "-i"] directEnv none
        ∈ (Run demoWorld demoCmd directArgs).trace ∧
      ∃ pre post name P file,
        (Run demoWorld demoCmd directArgs).trace
          = pre ++ Event.exec "/usr/bin/env" ["env", "-i"] directEnv none :: post ∧
        Event.profile name (.ok P) ∈ pre ∧
        ((∃ cr, Event.keyringRead P (.ok cr) ∈ pre) ∨
          (∃ sc, Event.sessionRet (.ok sc) ∈ pre)) ∧
        Event.lookPath file (.ok "/usr/bin/env") ∈ pre ∧
        (∀ ev ∈ pre, ev.failure = none) ∧ execCalls pre = 0) :=
  ⟨⟨by decide,
      (Run_exec_guard demoWorld demoCmd noSuchArgs).1 "nosuch"
        "executable file not found in $PATH" (by decide)⟩,
    ⟨by decide,
      (Run_exec_guard demoWorld demoCmd directArgs).2 "/usr/bin/env" ["env", "-i"] directEnv none
        (by decide)⟩⟩

/-- C6 as stated fails: the session provider refuses a wrong code and `Run`
returns 1, but the user interface has received two writes, the empty line of
`GetToken` and then the error. -/
theorem Run_failure_reported_counterexample :
    SessionAnswer demoWorld wrongCodeCmd sessionFlags devProfile (.error "access denied")
      (sessionTrace "000000") ∧
    (Run demoWorld wrongCodeCmd sessionArgs).status = .returned 1 ∧
    (Run demoWorld wrongCodeCmd sessionArgs).trace
      = sessionTrace "000000"
        ++ [Event.sessionRet (.error "access denied"), Event.ui .run .error "access denied"] ∧
    written (Run demoWorld wrongCodeCmd sessionArgs).trace
      = [(Channel.output, ""), (Channel.error, "access denied")] ∧
    (written (Run demoWorld wrongCodeCmd sessionArgs).trace).length ≠ 1 :=
  ⟨demo_session_refused, by decide, by decide, by decide, by decide⟩

/-- C6, amended, on five examples, one for each failing step: an unknown
profile, a profile the keyring holds nothing for, a wrong token code, a
command that is not on the search path, and a command that cannot be
executed. -/
theorem Run_failure_reported_witness :
    (demoWorld.flagParse (defaultFlags demoWorld) unknownArgs = .ok unknownFlags ["env"] ∧
      profileConfigOf demoWorld demoCmd [] unknownFlags.profileName
        = .error "profile not found" ∧
      (Run demoWorld demoCmd unknownArgs).status = .returned 1 ∧
      (Run demoWorld demoCmd unknownArgs).trace
        = [Event.profile unknownFlags.profileName (.error "profile not found"),
          Event.ui .run .output "profile not found"] ∧
      runMessages (Run demoWorld demoCmd unknownArgs).trace = ["profile not found"] ∧
      written (Run demoWorld demoCmd unknownArgs).trace
        = [(Channel.output, "profile not found")]) ∧
    (demoWorld.flagParse (defaultFlags demoWorld) noKeyArgs = .ok noKeyFlags ["env"] ∧
      keyringOf demoWorld demoCmd [Event.profile noKeyFlags.profileName (.ok ⟨"ops", []⟩)]
        ⟨"ops", []⟩ = .error "keyring: item not found" ∧
      (Run demoWorld demoCmd noKeyArgs).status = .returned 1 ∧
      (Run demoWorld demoCmd noKeyArgs).trace
        = [Event.profile noKeyFlags.profileName (.ok ⟨"ops", []⟩),
          Event.keyringRead ⟨"ops", []⟩ (.error "keyring: item not found"),
          Event.ui .run .error "keyring: item not found"] ∧
      runMessages (Run demoWorld demoCmd noKeyArgs).trace = ["keyring: item not found"] ∧
      written (Run demoWorld demoCmd noKeyArgs).trace
        = [(Channel.error, "keyring: item not found")]) ∧
    (demoWorld.flagParse (defaultFlags demoWorld) sessionArgs = .ok sessionFlags ["env", "-i"] ∧
      SessionAnswer demoWorld wrongCodeCmd sessionFlags devProfile (.error "access denied")
        (sessionTrace "000000") ∧
      (Run demoWorld wrongCodeCmd sessionArgs).status = .returned 1 ∧
      (Run demoWorld wrongCodeCmd sessionArgs).trace
        = sessionTrace "000000"
          ++ [Event.sessionRet (.error "access denied"),
            Event.ui .run .error "access denied"] ∧
      runMessages (Run demoWorld wrongCodeCmd sessionArgs).trace = ["access denied"] ∧
      written (Run demoWorld wrongCodeCmd sessionArgs).trace
        = List.replicate (answered (Run demoWorld wrongCodeCmd sessionArgs).trace)
            (Channel.output, "")
          ++ [(Channel.error, "access denied")]) ∧
    (demoWorld.flagParse (defaultFlags demoWorld) noSuchArgs = .ok directFlags ["nosuch"] ∧
      demoWorld.LookPath directTrace "nosuch" = .error "executable file not found in $PATH" ∧
      (Run demoWorld demoCmd noSuchArgs).status = .returned 1 ∧
      (Run demoWorld demoCmd noSuchArgs).trace
        = directTrace ++ [Event.lookPath "nosuch" (.error "executable file not found in $PATH"),
          Event.ui .run .error "executable file not found in $PATH"] ∧
      runMessages (Run demoWorld demoCmd noSuchArgs).trace
        = ["executable file not found in $PATH"] ∧
      written (Run demoWorld demoCmd noSuchArgs).trace
        = List.replicate (answered (Run demoWorld demoCmd noSuchArgs).trace)
            (Channel.output, "")
          ++ [(Channel.error, "executable file not found in $PATH")]) ∧
    (demoWorld.flagParse (defaultFlags demoWorld) badBinArgs = .ok directFlags ["badbin"] ∧
      demoWorld.LookPath directTrace "badbin" = .ok "/tmp/badbin" ∧
      demoWorld.Exec (directTrace ++ [Event.lookPath "badbin" (.ok "/tmp/badbin")])
        "/tmp/badbin" ["badbin"]
        (inherited demoWorld demoCmd ++ ["AWS_DEFAULT_PROFILE=" ++ devProfile.Name]
          ++ demoWorld.credsEnviron ⟨"AK", "SK"⟩) = some "exec format error" ∧
      (Run demoWorld demoCmd badBinArgs).status = .returned 1 ∧
      (Run demoWorld demoCmd badBinArgs).trace
        = directTrace ++ [Event.lookPath "badbin" (.ok "/tmp/badbin"),
          Event.exec "/tmp/badbin" ["badbin"]
            (inherited demoWorld demoCmd ++ ["AWS_DEFAULT_PROFILE=" ++ devProfile.Name]
              ++ demoWorld.credsEnviron ⟨"AK", "SK"⟩) (some "exec format error"),
          Event.ui .run .error "exec format error"] ∧
      runMessages (Run demoWorld demoCmd badBinArgs).trace = ["exec format error"] ∧
      written (Run demoWorld demoCmd badBinArgs).trace
        = List.replicate (answered (Run demoWorld demoCmd badBinArgs).trace)
            (Channel.output, "")
          ++ [(Channel.error, "exec format error")]) :=
  ⟨⟨by decide, by decide,
      (Run_failure_reported demoWorld demoCmd unknownArgs unknownFlags "env" []
        (by decide)).1 "profile not found" (by decide)⟩,
    ⟨by decide, by decide,
      ((Run_failure_reported demoWorld demoCmd noKeyArgs noKeyFlags "env" []
        (by decide)).2 ⟨"ops", []⟩ (by decide)).1 "keyring: item not found" (by decide)
        (by decide)⟩,
    ⟨by decide, demo_session_refused,
      ((Run_failure_reported demoWorld wrongCodeCmd sessionArgs sessionFlags "env" ["-i"]
        (by decide)).2 devProfile (by decide)).2.1 "access denied" (sessionTrace "000000")
        (by decide) (by decide) demo_session_refused⟩,
    ⟨by decide, by decide,
      (((Run_failure_reported demoWorld demoCmd noSuchArgs directFlags "nosuch" []
        (by decide)).2 devProfile (by decide)).2.2 directTrace _ demo_direct_credentials).1
        "executable file not found in $PATH" (by decide)⟩,
    ⟨by decide, by decide, by decide,
      (((Run_failure_reported demoWorld demoCmd badBinArgs directFlags "badbin" []
        (by decide)).2 devProfile (by decide)).2.2 directTrace _ demo_direct_credentials).2
        "/tmp/badbin" "exec format error" (by decide) (by decide)⟩⟩

/-- C7 as stated fails: the keyring read fails, and the environment held by
the command is no longer the inherited one, the profile indicator has been
appended. -/
theorem Run_env_counterexample :
    inherited demoWorld demoCmd = ["HOME=/root"] ∧
    Event.keyringRead ⟨"ops", []⟩ (.error "keyring: item not found")
      ∈ (Run demoWorld demoCmd noKeyArgs).trace ∧
    (Run demoWorld demoCmd noKeyArgs).cmd.env = some ["HOME=/root", "AWS_DEFAULT_PROFILE=ops"] ∧
    (Run demoWorld demoCmd noKeyArgs).cmd.env ≠ some (inherited demoWorld demoCmd) := by
  decide

/-- C7, amended, on the same example. -/
theorem Run_env_after_credentials_witness :
    ((∃ P err, Event.keyringRead P (.error err) ∈ (Run demoWorld demoCmd noKeyArgs).trace) ∨
      (∃ err, Event.sessionRet (.error err) ∈ (Run demoWorld demoCmd noKeyArgs).trace)) ∧
    ∃ name P, Event.profile name (.ok P) ∈ (Run demoWorld demoCmd noKeyArgs).trace ∧
      (Run demoWorld demoCmd noKeyArgs).cmd.env
        = some (inherited demoWorld demoCmd ++ ["AWS_DEFAULT_PROFILE=" ++ P.Name]) ∧
      execCalls (Run demoWorld demoCmd noKeyArgs).trace = 0 :=
  ⟨Or.inl ⟨⟨"ops", []⟩, "keyring: item not found", by decide⟩,
    (Run_env_after_credentials demoWorld demoCmd noKeyArgs).2
      (Or.inl ⟨⟨"ops", []⟩, "keyring: item not found", by decide⟩)⟩

/-- C8 on an example: `env -i` is executed as `/usr/bin/env` with the
argument vector `env`, `-i`. -/
theorem Run_exec_argv_witness :
    demoWorld.flagParse (defaultFlags demoWorld) directArgs = .ok directFlags ["env", "-i"] ∧
    profileConfigOf demoWorld demoCmd [] directFlags.profileName = .ok devProfile ∧
    demoWorld.LookPath directTrace "env" = .ok "/usr/bin/env" ∧
    (∃ envv tail, (Run demoWorld demoCmd directArgs).trace
      = directTrace ++ [Event.lookPath "env" (.ok "/usr/bin/env"),
        Event.exec "/usr/bin/env" ["env", "-i"] envv
          (demoWorld.Exec (directTrace ++ [Event.lookPath "env" (.ok "/usr/bin/env")])
            "/usr/bin/env" ["env", "-i"] envv)] ++ tail) ∧
    execCalls (Run demoWorld demoCmd directArgs).trace = 1 ∧
    (∀ bin1 argv1 envv1 res1,
      Event.exec bin1 argv1 envv1 res1 ∈ (Run demoWorld demoCmd directArgs).trace →
      bin1 = "/usr/bin/env" ∧ argv1 = ["env", "-i"] ∧ argv1.length = ["-i"].length + 1 ∧
      argv1.head? = some "env") :=
  ⟨by decide, by decide, by decide,
    Run_exec_argv demoWorld demoCmd directArgs directFlags "env" ["-i"] devProfile directTrace
      (demoWorld.credsEnviron ⟨"AK", "SK"⟩) "/usr/bin/env" (by decide) (by decide)
      demo_direct_credentials (by decide)⟩

/-- C9 on an example: the user types `123456`. -/
theorem GetToken_prompt_once_witness :
    demoCmd.Ui.AskSecret ([] ++ [Event.getToken "mfa"])
      ("Enter token code for " ++ demoWorld.quote "mfa" ++ ":") = .ok "123456" ∧
    (GetToken demoWorld demoCmd [] "mfa").1 = ("123456", none) ∧
    written (GetToken demoWorld demoCmd [] "mfa").2 = [(Channel.output, "")] :=
  ⟨rfl, (GetToken_prompt_once demoWorld demoCmd [] "mfa").2.2.1 "123456" rfl⟩

/-- C10 on an example: only flags, no command. -/
theorem Run_empty_command_witness :
    demoWorld.flagParse (defaultFlags demoWorld) ["--no-session"]
      = .ok ⟨false, true, true, "dev", DefaultSessionDuration⟩ [] ∧
    (Run demoWorld demoCmd ["--no-session"]).status = .returned 1 ∧
    (Run demoWorld demoCmd ["--no-session"]).trace
      = [Event.ui .run .output ("Expected arguments: " ++ Help)] ∧
    (Run demoWorld demoCmd ["--no-session"]).cmd.env = demoCmd.env ∧
    profileCalls (Run demoWorld demoCmd ["--no-session"]).trace = 0 ∧
    storeReads (Run demoWorld demoCmd ["--no-session"]).trace = 0 ∧
    sessionCalls (Run demoWorld demoCmd ["--no-session"]).trace = 0 ∧
    lookPathCalls (Run demoWorld demoCmd ["--no-session"]).trace = 0 ∧
    execCalls (Run demoWorld demoCmd ["--no-session"]).trace = 0 :=
  ⟨by decide,
    (Run_empty_command demoWorld demoCmd ["--no-session"]).1
      ⟨false, true, true, "dev", DefaultSessionDuration⟩ (by decide)⟩

end AwsVault
